import Mathlib

/-!
Verification of the rbroadlink wire-protocol stack: a shallow embedding of the
library's codec functions (remote sub-codec, HVAC sub-codec, authentication,
wireless-join, discovery classification, AES-128-CBC command envelope) together
with theorems settling the specification claims.

Bytes are modelled as `Nat` values below 256; buffers as `List Nat`.
Multi-byte integers are little-endian, mirroring the `packed_struct`
`endian = "lsb"` attribute used throughout the source.

Fallible Rust functions returning `Result<T, String>` are modelled with `RRes`,
which has an extra `panicked` alternative for unrecoverable aborts (index out of
bounds, arithmetic overflow in debug builds): the spec explicitly distinguishes
explicit error results from aborts, so the embedding must too.
-/

set_option maxRecDepth 40000

/-- Outcome of a fallible Rust function: `ok`, an explicit `Err` carrying a
message, or a panic (unrecoverable abort). -/
inductive RRes (α : Type) where
  | ok (value : α)
  | err (msg : String)
  | panicked
  deriving DecidableEq, Repr

/-- Little-endian 16-bit encoding of `x` (low byte first), as written by
`packed_struct` for a `u16` field. -/
def u16le (x : Nat) : List Nat := [x % 256, x / 256 % 256]

/-- Little-endian 32-bit encoding of `x`, as written for a `u32` field. -/
def u32le (x : Nat) : List Nat :=
  [x % 256, x / 256 % 256, x / 2 ^ 16 % 256, x / 2 ^ 24 % 256]

/-- Read the little-endian `u16` stored at offset `off` of buffer `l`. -/
def readU16LE (l : List Nat) (off : Nat) : Nat :=
  l.getD off 0 + 256 * l.getD (off + 1) 0

/-- Embedding of `network/util.rs::checksum`: seed the accumulator with
`0xBEAF`, add every byte, truncate to 16 bits (`sum as u16`). -/
def checksum (data : List Nat) : Nat := (0xBEAF + data.sum) % 65536

/-- Embedding of `network/util.rs::reverse_mac`. -/
def reverse_mac (mac : List Nat) : List Nat := mac.reverse

/-- One step of the CRC-16/MODBUS bit loop: shift right, conditionally xor the
reflected polynomial `0xA001`. -/
def crcBit (crc : Nat) : Nat :=
  if crc % 2 = 1 then (crc / 2) ^^^ 0xA001 else crc / 2

/-- Eight bit-steps of the CRC loop, performed for each input byte. -/
def crcByte (crc b : Nat) : Nat :=
  (crcBit (crcBit (crcBit (crcBit (crcBit (crcBit (crcBit (crcBit (crc ^^^ b)))))))))

/-- Modelled from the spec: `compute_generic_checksum`, the HVAC payload
checksum.  The function is imported by `network/hvac_data.rs` from
`network::util`, but the `util.rs` present in the snapshot does not contain it
(the snapshot mixes revisions); the spec pins it down as CRC-16/MODBUS:
polynomial `0xA001` (reflected), init `0xFFFF`, no final xor. -/
def compute_generic_checksum (data : List Nat) : Nat :=
  data.foldl crcByte 0xFFFF

/-- `RemoteDataCommand` from `network/remote_data.rs`. -/
inductive RemoteDataCommand where
  | sendCode
  | startLearningIR
  | startLearningRF
  | getCode
  | sweepRfFrequencies
  | stopRfSweep
  | checkFrequency
  deriving DecidableEq, Repr

/-- Wire discriminant of each `RemoteDataCommand` value. -/
def RemoteDataCommand.val : RemoteDataCommand → Nat
  | .sendCode => 0x02
  | .startLearningIR => 0x03
  | .startLearningRF => 0x1B
  | .getCode => 0x04
  | .sweepRfFrequencies => 0x19
  | .stopRfSweep => 0x1E
  | .checkFrequency => 0x1A

/-- Decode a wire byte back into a `RemoteDataCommand`; `packed_struct` fails
the whole unpack when the discriminant matches no variant. -/
def decodeRemoteCommand (b : Nat) : Option RemoteDataCommand :=
  if b = 0x02 then some .sendCode
  else if b = 0x03 then some .startLearningIR
  else if b = 0x1B then some .startLearningRF
  else if b = 0x04 then some .getCode
  else if b = 0x19 then some .sweepRfFrequencies
  else if b = 0x1E then some .stopRfSweep
  else if b = 0x1A then some .checkFrequency
  else none

/-- Embedding of `RemoteDataMessage::pack_with_payload` (for the message built
by `RemoteDataMessage::new(cmd)`): `payload_length = len + 4` (the 4 reserves
the stop tail), 6-byte header `[len lo, len hi, cmd, 0, 0, 0]`, then the
payload.  `try_into::<u16>` fails for over-long payloads, as does the
`checked_add`. -/
def remotePackWithPayload (cmd : RemoteDataCommand) (payload : List Nat) :
    RRes (List Nat) :=
  if payload.length > 65535 then .err "Payload is too long!"
  else if payload.length + 4 > 65535 then
    .err "Could not add the start buffer! Payload is too long"
  else
    .ok (u16le (payload.length + 4) ++ [cmd.val, 0, 0, 0] ++ payload)

/-- Embedding of `RemoteDataMessage::unpack_with_payload`.  Inputs shorter than
the 6-byte header yield an empty payload.  Otherwise the header is unpacked
(failing on an unknown command discriminant at byte 2), and the body is the
slice `bytes[0x06 .. payload_length + 1]` — `panicked` models the Rust slice
panic when that range is invalid, and the `u16` overflow of
`info.payload_length + 1`. -/
def remoteUnpackWithPayload (bytes : List Nat) : RRes (List Nat) :=
  if bytes.length < 6 then .ok []
  else
    match decodeRemoteCommand (bytes.getD 2 0) with
    | none => .err "Could not unpack remote data response!"
    | some _ =>
      let pl := readU16LE bytes 0
      if pl + 1 > 65535 then .panicked
      else if pl + 1 < 6 ∨ pl + 1 > bytes.length then .panicked
      else .ok ((bytes.take (pl + 1)).drop 6)

/-- `HvacDataCommand` from `network/hvac_data.rs`. -/
inductive HvacDataCommand where
  | setState
  | getState
  | getAcInfo
  deriving DecidableEq, Repr

/-- Wire discriminant of each `HvacDataCommand` value. -/
def HvacDataCommand.val : HvacDataCommand → Nat
  | .setState => 0x00
  | .getState => 0x01
  | .getAcInfo => 0x02

/-- The 12-byte HVAC header built by `HvacDataMessage::new` followed by
`pack_with_payload`: total length `data_length + 10`, magics `0x00BB`,
`0x8006`, `0x0000`, `data_length = 2 + len`, and the command flag
`(1 << 8) + ((cmd << 4) | 1)`. -/
def hvacHeader (cmd : HvacDataCommand) (dataLength : Nat) : List Nat :=
  u16le (dataLength + 10) ++ u16le 0x00BB ++ u16le 0x8006 ++ u16le 0 ++
  u16le dataLength ++ u16le ((1 <<< 8) + ((cmd.val <<< 4) ||| 1))

/-- Embedding of `HvacDataMessage::pack_with_payload`: header, payload, then
the CRC-16/MODBUS of everything after the outer length field, appended little
endian.  `panicked` models the debug-build `u16` overflow of
`data_length += len`; the explicit error is the `checked_add(10)` failure. -/
def hvacPackWithPayload (cmd : HvacDataCommand) (payload : List Nat) :
    RRes (List Nat) :=
  if payload.length > 65535 then .err "Payload is too long!"
  else if 2 + payload.length > 65535 then .panicked
  else if 2 + payload.length + 10 > 65535 then
    .err "Could not add the start buffer! Payload is too long"
  else
    let dl := 2 + payload.length
    let body := hvacHeader cmd dl ++ payload
    .ok (body ++ u16le (compute_generic_checksum (body.drop 2)))

/-- Embedding of `HvacDataMessage::unpack_with_payload`: unpack the header
(slice `bytes[0..12]` panics when shorter), require
`payload_length == len - 2`, recompute the CRC over `bytes[0x02 ..
payload_length]` against the trailing two bytes, then slice
`bytes[0x0C .. 0x0C + data_length - 2]`. -/
def hvacUnpackWithPayload (bytes : List Nat) : RRes (List Nat) :=
  if bytes.length < 12 then .panicked
  else
    let pl := readU16LE bytes 0
    let dl := readU16LE bytes 8
    if bytes.length % 65536 < 2 then .panicked
    else if bytes.length % 65536 - 2 ≠ pl then
      .err "Command checksum does not match actual checksum!"
    else if pl + 1 ≥ bytes.length then .panicked
    else
      let dataCrc := bytes.getD pl 0 + 256 * bytes.getD (pl + 1) 0
      let realCrc := compute_generic_checksum ((bytes.take pl).drop 2)
      if dataCrc ≠ realCrc then
        .err "Data checksum does not match actual checksum!"
      else if dl < 2 then .panicked
      else if 12 + (dl - 2) > bytes.length then .panicked
      else .ok ((bytes.take (12 + (dl - 2))).drop 12)

theorem hvac_header_length (cmd : HvacDataCommand) (dl : Nat) :
    (hvacHeader cmd dl).length = 12 := by
  simp [hvacHeader, u16le]

/-- `AuthenticationMessage` from `network/authentication.rs`: 16-byte client
id, two magic bytes, 32-byte NUL-padded device name. -/
structure AuthenticationMessage where
  id : List Nat
  magic0 : Nat
  magic1 : Nat
  name : List Nat
  deriving DecidableEq, Repr

/-- Embedding of `AuthenticationMessage::new(name)`: the id is 16 copies of
`0x31`, both magics are `0x01`, and the first `min(len, 32)` bytes of the name
are copied into a zero-initialised 32-byte field (the copy loop runs to
`max = if name_len > 0x20 { 0x20 } else { name_len }`). -/
def authNew (name : List Nat) : AuthenticationMessage :=
  let mx := if name.length > 32 then 32 else name.length
  { id := List.replicate 16 0x31
    magic0 := 0x1
    magic1 := 0x1
    name := name.take mx ++ List.replicate (32 - mx) 0 }

/-- Embedding of the `packed_struct` pack of `AuthenticationMessage`
(`size_bytes = 0x50`, id at 0x04, magics at 0x1E and 0x2D, name at 0x30). -/
def authPack (m : AuthenticationMessage) : List Nat :=
  List.replicate 4 0 ++ m.id ++ List.replicate 10 0 ++ [m.magic0] ++
  List.replicate 14 0 ++ [m.magic1] ++ List.replicate 2 0 ++ m.name

/-- `WirelessConnection` from `network/wireless_connection.rs`; the source
variants are `None`, `WEP`, `WPA1`, `WPA2`, `WPA`. -/
inductive WirelessConnection where
  | wnone (ssid : List Nat)
  | wep (ssid pass : List Nat)
  | wpa1 (ssid pass : List Nat)
  | wpa2 (ssid pass : List Nat)
  | wpa (ssid pass : List Nat)
  deriving DecidableEq, Repr

/-- The `(ssid, pass, security_mode)` triple selected by the `match` at the top
of `WirelessConnection::to_message`. -/
def WirelessConnection.fields : WirelessConnection → List Nat × List Nat × Nat
  | .wnone ssid => (ssid, [], 0)
  | .wep ssid pass => (ssid, pass, 1)
  | .wpa1 ssid pass => (ssid, pass, 2)
  | .wpa2 ssid pass => (ssid, pass, 3)
  | .wpa ssid pass => (ssid, pass, 4)

/-- `WirelessConnectionMessage` from `network/wireless_connection.rs`. -/
structure WirelessConnectionMessage where
  wchecksum : Nat
  magic_constant : Nat
  ssid : List Nat
  password : List Nat
  ssid_length : Nat
  password_length : Nat
  security_mode : Nat
  deriving DecidableEq, Repr

/-- Embedding of the `packed_struct` pack of `WirelessConnectionMessage`
(`size_bytes = 136`: checksum at 32, magic at 38, ssid at 68..=99, password at
100..=131, the two lengths at 132/133, security mode at 134). -/
def wcPack (m : WirelessConnectionMessage) : List Nat :=
  List.replicate 32 0 ++ u16le m.wchecksum ++ List.replicate 4 0 ++
  [m.magic_constant] ++ List.replicate 29 0 ++ m.ssid ++ m.password ++
  [m.ssid_length, m.password_length, m.security_mode, 0]

/-- Embedding of `WirelessConnection::to_message`.  Only the SSID length is
guarded with an explicit `Err`; a password longer than 32 bytes makes the copy
loop `pass_fixed[i] = *c` index out of bounds, which is a Rust panic —
modelled by `panicked`.  Otherwise the message is built with both fields
NUL-padded to 32 bytes and the envelope checksum of the packed form (computed
with the checksum field still zero) is written into it. -/
def toMessage (c : WirelessConnection) : RRes WirelessConnectionMessage :=
  let (ssid, pass, mode) := c.fields
  if ssid.length > 32 then
    .err "Could not use provided SSID! SSID longer than 32 characters."
  else if pass.length > 32 then .panicked
  else
    let m0 : WirelessConnectionMessage :=
      { wchecksum := 0
        magic_constant := 0x14
        ssid := ssid ++ List.replicate (32 - ssid.length) 0
        password := pass ++ List.replicate (32 - pass.length) 0
        ssid_length := ssid.length
        password_length := pass.length
        security_mode := mode }
    .ok { m0 with wchecksum := checksum (wcPack m0) }

/-- Sanity anchor: the embedding reproduces the repository's own test fixture
`remote_data_packs_correctly` byte for byte. -/
theorem remote_pack_fixture :
    remotePackWithPayload .sendCode [0xAB, 0xCD, 0xEF, 0x01, 0x23, 0x45, 0x67, 0x89] =
      .ok [12, 0, 2, 0, 0, 0, 171, 205, 239, 1, 35, 69, 103, 137] := by
  decide

/-- Sanity anchor: the embedding reproduces the repository's own test fixture
`wireless_connection_packs_correctly` byte for byte (checksum bytes `E1 C6`,
magic `0x14`, lengths `09 0D`, security mode `02`). -/
theorem wireless_pack_fixture :
    (match toMessage (.wpa1 [84, 101, 115, 116, 32, 83, 83, 73, 68]
        [84, 101, 115, 116, 32, 80, 97, 115, 115, 119, 111, 114, 100]) with
      | .ok m => wcPack m
      | _ => []) =
      [0, 0, 0, 0, 0, 0, 0, 0, 0, 0, 0, 0, 0, 0, 0, 0, 0, 0, 0, 0, 0, 0, 0, 0,
       0, 0, 0, 0, 0, 0, 0, 0, 225, 198, 0, 0, 0, 0, 20, 0, 0, 0, 0, 0, 0, 0,
       0, 0, 0, 0, 0, 0, 0, 0, 0, 0, 0, 0, 0, 0, 0, 0, 0, 0, 0, 0, 0, 0, 84,
       101, 115, 116, 32, 83, 83, 73, 68, 0, 0, 0, 0, 0, 0, 0, 0, 0, 0, 0, 0,
       0, 0, 0, 0, 0, 0, 0, 0, 0, 0, 0, 84, 101, 115, 116, 32, 80, 97, 115,
       115, 119, 111, 114, 100, 0, 0, 0, 0, 0, 0, 0, 0, 0, 0, 0, 0, 0, 0, 0,
       0, 0, 0, 0, 9, 13, 2, 0] := by
  decide

/-- C1: the claim states that `unpack_with_payload ∘ pack_with_payload` is the
identity on payloads for the Remote codec and the identity modulo the command
echo for the HVAC codec.  The HVAC codec does round-trip (last two conjuncts),
but the Remote codec does not: its unpack slices `bytes[0x06 ..
payload_length + 1]` instead of `bytes[0x06 .. payload_length + 2]`, so the
round trip of `[0xAB]` returns `[]` (the final payload byte is dropped), and
the round trip of the empty payload panics on the reversed slice `[6..5]`. -/
theorem c1_remote_roundtrip_drops_byte :
    remotePackWithPayload .sendCode [0xAB] = .ok [5, 0, 2, 0, 0, 0, 0xAB] ∧
    remoteUnpackWithPayload [5, 0, 2, 0, 0, 0, 0xAB] = .ok [] ∧
    remotePackWithPayload .sendCode [] = .ok [4, 0, 2, 0, 0, 0] ∧
    remoteUnpackWithPayload [4, 0, 2, 0, 0, 0] = .panicked ∧
    hvacPackWithPayload .setState [0xAB] =
      .ok [13, 0, 187, 0, 6, 128, 0, 0, 3, 0, 1, 1, 171, 3, 45] ∧
    hvacUnpackWithPayload [13, 0, 187, 0, 6, 128, 0, 0, 3, 0, 1, 1, 171, 3, 45] =
      .ok [0xAB] := by
  decide

/-- C5: the claim states that for a reply `r` of at least 6 bytes the Remote
unpack returns `r[0x06 .. 0x06 + payload_length - 4]`.  The short-reply half
holds (first conjunct), but the slice taken by the code is
`r[0x06 .. payload_length + 1]`: on `r = [6, 0, 2, 0, 0, 0, 0xAB, 0xCD]`
(`payload_length = 6`) the claimed slice is `[0xAB, 0xCD]` while the code
returns `[0xAB]`. -/
theorem c5_remote_unpack_slice_off_by_one :
    remoteUnpackWithPayload [1, 2] = .ok [] ∧
    remoteUnpackWithPayload [6, 0, 2, 0, 0, 0, 0xAB, 0xCD] = .ok [0xAB] := by
  decide

/-- C3: the claim states that over-long SSIDs and passwords are both rejected
with an explicit `FieldTooLong`-style error, never an unrecoverable abort.
The SSID half holds (second conjunct), but a 33-byte password makes
`to_message` panic in the `pass_fixed[i] = *c` copy loop (index out of
bounds), contradicting the code's own intended rejection (its unreachable
`expect` message reads "Password is too long (max 32 characters)"). -/
theorem c3_long_password_panics :
    toMessage (.wpa1 [97] (List.replicate 33 97)) = .panicked ∧
    toMessage (.wpa1 (List.replicate 33 97) [97]) =
      .err "Could not use provided SSID! SSID longer than 32 characters." := by
  decide

/-- C6: `AuthenticationMessage::new("Test 1").pack()` equals the fixed
0x50-byte vector of the repository test `authentication_packs_correctly`:
the 16-byte `0x31` client id at 0x04, magic `0x01` bytes at 0x1E and 0x2D,
and the UTF-8 bytes of "Test 1" at 0x30 padded with NULs. -/
theorem c6_auth_pack_test_vector :
    authPack (authNew [0x54, 0x65, 0x73, 0x74, 0x20, 0x31]) =
      [0, 0, 0, 0, 49, 49, 49, 49, 49, 49, 49, 49, 49, 49, 49, 49, 49, 49, 49,
       49, 0, 0, 0, 0, 0, 0, 0, 0, 0, 0, 1, 0, 0, 0, 0, 0, 0, 0, 0, 0, 0, 0,
       0, 0, 0, 1, 0, 0, 84, 101, 115, 116, 32, 49, 0, 0, 0, 0, 0, 0, 0, 0, 0,
       0, 0, 0, 0, 0, 0, 0, 0, 0, 0, 0, 0, 0, 0, 0, 0, 0] := by
  decide

/-- C10: `AuthenticationMessage::new` accepts a name of any byte length
without error (it is total), and the packed 32-byte name field at offset 0x30
holds exactly the first `min(len, 32)` bytes of the name followed by NUL
padding: over-long names are silently truncated. -/
theorem c10_auth_name_truncated (nm : List Nat) :
    (authPack (authNew nm)).length = 0x50 ∧
    (authPack (authNew nm)).drop 0x30 =
      nm.take (min nm.length 32) ++ List.replicate (32 - min nm.length 32) 0 := by
  have hmx : (if nm.length > 32 then 32 else nm.length) = min nm.length 32 := by
    split <;> omega
  refine ⟨?_, ?_⟩
  · simp only [authPack, authNew, hmx, List.length_append, List.length_replicate,
      List.length_take, List.length_cons, List.length_nil]
    omega
  · have h : authPack (authNew nm) =
        (List.replicate 4 0 ++ List.replicate 16 0x31 ++ List.replicate 10 0 ++
          [1] ++ List.replicate 14 0 ++ [1] ++ List.replicate 2 0) ++
        (nm.take (min nm.length 32) ++ List.replicate (32 - min nm.length 32) 0) := by
      simp [authPack, authNew, hmx]
    rw [h]
    have hl : (List.replicate 4 (0 : Nat) ++ List.replicate 16 0x31 ++
        List.replicate 10 0 ++ [1] ++ List.replicate 14 0 ++ [1] ++
        List.replicate 2 0).length = 0x30 := by simp
    rw [← hl, List.drop_left]

theorem u16_le_roundtrip {x : Nat} (h : x < 65536) : x % 256 + 256 * (x / 256 % 256) = x := by
  omega

/-- C7: for every command and every body short enough for the `u16` length
fields, `HvacDataMessage::new(cmd).pack_with_payload(b)` succeeds and produces
a buffer whose LE `u16` at 0x00 is `data_length + 10`, whose `data_length` at
0x08 is `2 + len(b)`, whose command flag at 0x0A is `0x0100 | ((cmd << 4) | 1)`,
followed by the body, followed by the CRC-16/MODBUS of bytes `[0x02 .. end]`
appended as two little-endian bytes. -/
theorem c7_hvac_pack_layout (cmd : HvacDataCommand) (b : List Nat)
    (h : b.length ≤ 65523) :
    ∃ buf, hvacPackWithPayload cmd b = .ok buf ∧
      readU16LE buf 0 = (2 + b.length) + 10 ∧
      readU16LE buf 8 = 2 + b.length ∧
      readU16LE buf 10 = 0x0100 ||| ((cmd.val <<< 4) ||| 1) ∧
      (buf.drop 12).take b.length = b ∧
      buf.drop (12 + b.length) =
        u16le (compute_generic_checksum ((buf.take (12 + b.length)).drop 2)) ∧
      buf.length = b.length + 14 := by
  have hflag : (1 <<< 8) + ((cmd.val <<< 4) ||| 1) = 0x0100 ||| ((cmd.val <<< 4) ||| 1) := by
    cases cmd <;> decide
  have hpack : hvacPackWithPayload cmd b =
      .ok ((hvacHeader cmd (2 + b.length) ++ b) ++
        u16le (compute_generic_checksum ((hvacHeader cmd (2 + b.length) ++ b).drop 2))) := by
    unfold hvacPackWithPayload
    rw [if_neg (by omega), if_neg (by omega), if_neg (by omega)]
  refine ⟨_, hpack, ?_, ?_, ?_, ?_, ?_, ?_⟩
  · show (2 + b.length + 10) % 256 + 256 * ((2 + b.length + 10) / 256 % 256) = 2 + b.length + 10
    omega
  · show (2 + b.length) % 256 + 256 * ((2 + b.length) / 256 % 256) = 2 + b.length
    omega
  · show ((1 <<< 8) + ((cmd.val <<< 4) ||| 1)) % 256 +
        256 * (((1 <<< 8) + ((cmd.val <<< 4) ||| 1)) / 256 % 256) = _
    rw [← hflag]
    cases cmd <;> decide
  · show (b ++ u16le _).take b.length = b
    rw [List.take_left]
  · have hlen : (hvacHeader cmd (2 + b.length) ++ b).length = 12 + b.length := by
      simp [hvacHeader, u16le]
      omega
    rw [← hlen, List.drop_left, List.take_left]
  · simp [hvacHeader, u16le]
    try omega

/-- Witness for C7 at `cmd = GetState`, `b = [7, 8]`. -/
theorem c7_hvac_pack_layout_witness :
    (([7, 8] : List Nat).length ≤ 65523) ∧
    (∃ buf, hvacPackWithPayload .getState [7, 8] = .ok buf ∧
      readU16LE buf 0 = (2 + ([7, 8] : List Nat).length) + 10 ∧
      readU16LE buf 8 = 2 + ([7, 8] : List Nat).length ∧
      readU16LE buf 10 = 0x0100 ||| ((HvacDataCommand.getState.val <<< 4) ||| 1) ∧
      (buf.drop 12).take ([7, 8] : List Nat).length = [7, 8] ∧
      buf.drop (12 + ([7, 8] : List Nat).length) =
        u16le (compute_generic_checksum
          ((buf.take (12 + ([7, 8] : List Nat).length)).drop 2)) ∧
      buf.length = ([7, 8] : List Nat).length + 14) :=
  ⟨by decide, c7_hvac_pack_layout .getState [7, 8] (by decide)⟩

/-- `HvacMode` from `network/hvac_data.rs`. -/
inductive HvacMode where
  | auto | cool | dry | heat | fan
  deriving DecidableEq, Repr

/-- Wire discriminant of `HvacMode`. -/
def HvacMode.val : HvacMode → Nat
  | .auto => 0 | .cool => 1 | .dry => 2 | .heat => 3 | .fan => 4

/-- Decode a 3-bit field into `HvacMode`. -/
def decodeMode (b : Nat) : Option HvacMode :=
  if b = 0 then some .auto else if b = 1 then some .cool
  else if b = 2 then some .dry else if b = 3 then some .heat
  else if b = 4 then some .fan else none

/-- `HvacSpeed` from `network/hvac_data.rs` (source variants `None`, `High`,
`Mid`, `Low`, `Auto`). -/
inductive HvacSpeed where
  | noSpeed | high | mid | low | auto
  deriving DecidableEq, Repr

/-- Wire discriminant of `HvacSpeed`. -/
def HvacSpeed.val : HvacSpeed → Nat
  | .noSpeed => 0 | .high => 1 | .mid => 2 | .low => 3 | .auto => 5

/-- Decode a 3-bit field into `HvacSpeed`. -/
def decodeSpeed (b : Nat) : Option HvacSpeed :=
  if b = 0 then some .noSpeed else if b = 1 then some .high
  else if b = 2 then some .mid else if b = 3 then some .low
  else if b = 5 then some .auto else none

/-- `HvacPreset` from `network/hvac_data.rs`. -/
inductive HvacPreset where
  | normal | turbo | mute
  deriving DecidableEq, Repr

/-- Wire discriminant of `HvacPreset`. -/
def HvacPreset.val : HvacPreset → Nat
  | .normal => 0 | .turbo => 1 | .mute => 2

/-- Decode a 2-bit field into `HvacPreset`. -/
def decodePreset (b : Nat) : Option HvacPreset :=
  if b = 0 then some .normal else if b = 1 then some .turbo
  else if b = 2 then some .mute else none

/-- `HvacSwHoriz` from `network/hvac_data.rs`. -/
inductive HvacSwHoriz where
  | leftFix | leftRightFix | rightFix | rightFlap | on | off
  deriving DecidableEq, Repr

/-- Wire discriminant of `HvacSwHoriz`. -/
def HvacSwHoriz.val : HvacSwHoriz → Nat
  | .leftFix => 2 | .leftRightFix => 7 | .rightFix => 6 | .rightFlap => 5
  | .on => 0 | .off => 1

/-- Decode a 3-bit field into `HvacSwHoriz`. -/
def decodeSwHoriz (b : Nat) : Option HvacSwHoriz :=
  if b = 2 then some .leftFix else if b = 7 then some .leftRightFix
  else if b = 6 then some .rightFix else if b = 5 then some .rightFlap
  else if b = 0 then some .on else if b = 1 then some .off else none

/-- `HvacSwVert` from `network/hvac_data.rs`. -/
inductive HvacSwVert where
  | on | pos1 | pos2 | pos3 | pos4 | pos5 | off
  deriving DecidableEq, Repr

/-- Wire discriminant of `HvacSwVert`. -/
def HvacSwVert.val : HvacSwVert → Nat
  | .on => 0 | .pos1 => 1 | .pos2 => 2 | .pos3 => 3 | .pos4 => 4 | .pos5 => 5
  | .off => 7

/-- Decode a 3-bit field into `HvacSwVert`. -/
def decodeSwVert (b : Nat) : Option HvacSwVert :=
  if b = 0 then some .on else if b = 1 then some .pos1
  else if b = 2 then some .pos2 else if b = 3 then some .pos3
  else if b = 4 then some .pos4 else if b = 5 then some .pos5
  else if b = 7 then some .off else none

/-- `AirCondState` from `network/hvac_data.rs` (13 bytes, MSB0 bit layout).
`target_temp_int` is the 5-bit `Integer<u8, Bits<5>>` field (the `Nat` carries
the invariant `< 32` as a theorem hypothesis); `magic1` is the 4-bit nibble
set to `0x0F` by `prepare_and_pack`. -/
structure AirCondState where
  power : Bool
  target_temp_int : Nat
  swing_v : HvacSwVert
  swing_h : HvacSwHoriz
  mode : HvacMode
  magic1 : Nat
  fanspeed : HvacSpeed
  preset : HvacPreset
  sleep : Bool
  ifeel : Bool
  health : Bool
  clean : Bool
  display : Bool
  mildew : Bool
  deriving DecidableEq, Repr

/-- `2^k` when the flag is set, else 0: one MSB0 bit inside a byte. -/
def flagBit (k : Nat) (b : Bool) : Nat := if b then 2 ^ k else 0

/-- Embedding of the `packed_struct` pack of `AirCondState` (MSB0 bit
numbering, 13 bytes).  Byte `i` carries bits `8i .. 8i+7`; a field at bits
`a..=b` sits left-aligned inside its byte, so e.g. `target_temp_int`
(bits 0..=4) contributes `value * 8` to byte 0 and `swing_v` (bits 5..=7) the
low three bits.  Sub-byte integer fields are masked to their declared width. -/
def packAirCondState (s : AirCondState) : List Nat :=
  [ s.target_temp_int % 32 * 8 + s.swing_v.val,
    s.swing_h.val * 32,
    s.magic1 % 16,
    s.fanspeed.val * 32,
    s.preset.val,
    s.mode.val * 32 + flagBit 3 s.ifeel + flagBit 2 s.sleep,
    0, 0,
    flagBit 5 s.power + flagBit 2 s.clean + flagBit 1 s.health,
    0,
    flagBit 4 s.display + flagBit 3 s.mildew,
    0, 0 ]

/-- Embedding of `AirCondState::prepare_and_pack`: set `magic1 = 0x0F`, then
pack. -/
def prepareAndPack (s : AirCondState) : List Nat :=
  packAirCondState { s with magic1 := 0x0F }

/-- Embedding of the `packed_struct` unpack of `AirCondState` (as used by
`unpack_from_slice` on a 13-byte slice): each field is extracted from its bit
range; an enum field whose discriminant matches no variant fails the whole
unpack. -/
def unpackAirCondState (l : List Nat) : Option AirCondState :=
  if l.length ≠ 13 then none
  else
    let b0 := l.getD 0 0
    let b1 := l.getD 1 0
    let b2 := l.getD 2 0
    let b3 := l.getD 3 0
    let b4 := l.getD 4 0
    let b5 := l.getD 5 0
    let b8 := l.getD 8 0
    let b10 := l.getD 10 0
    match decodeSwVert (b0 % 8), decodeSwHoriz (b1 / 32 % 8),
        decodeMode (b5 / 32 % 8), decodeSpeed (b3 / 32 % 8),
        decodePreset (b4 % 4) with
    | some swv, some swh, some md, some sp, some pr =>
      some
        { power := b8 / 32 % 2 == 1
          target_temp_int := b0 / 8 % 32
          swing_v := swv
          swing_h := swh
          mode := md
          magic1 := b2 % 16
          fanspeed := sp
          preset := pr
          sleep := b5 / 4 % 2 == 1
          ifeel := b5 / 8 % 2 == 1
          health := b8 / 2 % 2 == 1
          clean := b8 / 4 % 2 == 1
          display := b10 / 16 % 2 == 1
          mildew := b10 / 8 % 2 == 1 }
    | _, _, _, _, _ => none

theorem swVert_val_lt (e : HvacSwVert) : e.val < 8 := by cases e <;> decide

theorem swHoriz_val_lt (e : HvacSwHoriz) : e.val < 8 := by cases e <;> decide

theorem mode_val_lt (e : HvacMode) : e.val < 8 := by cases e <;> decide

theorem speed_val_lt (e : HvacSpeed) : e.val < 8 := by cases e <;> decide

theorem preset_val_lt (e : HvacPreset) : e.val < 4 := by cases e <;> decide

theorem decode_swVert_val (e : HvacSwVert) : decodeSwVert e.val = some e := by
  cases e <;> rfl

theorem decode_swHoriz_val (e : HvacSwHoriz) : decodeSwHoriz e.val = some e := by
  cases e <;> rfl

theorem decode_mode_val (e : HvacMode) : decodeMode e.val = some e := by
  cases e <;> rfl

theorem decode_speed_val (e : HvacSpeed) : decodeSpeed e.val = some e := by
  cases e <;> rfl

theorem decode_preset_val (e : HvacPreset) : decodePreset e.val = some e := by
  cases e <;> rfl

theorem bit_power (pw cl hl : Bool) :
    ((flagBit 5 pw + flagBit 2 cl + flagBit 1 hl) / 32 % 2 == 1) = pw := by
  cases pw <;> cases cl <;> cases hl <;> decide

theorem bit_clean (pw cl hl : Bool) :
    ((flagBit 5 pw + flagBit 2 cl + flagBit 1 hl) / 4 % 2 == 1) = cl := by
  cases pw <;> cases cl <;> cases hl <;> decide

theorem bit_health (pw cl hl : Bool) :
    ((flagBit 5 pw + flagBit 2 cl + flagBit 1 hl) / 2 % 2 == 1) = hl := by
  cases pw <;> cases cl <;> cases hl <;> decide

theorem bit_display (dp ml : Bool) :
    ((flagBit 4 dp + flagBit 3 ml) / 16 % 2 == 1) = dp := by
  cases dp <;> cases ml <;> decide

theorem bit_mildew (dp ml : Bool) :
    ((flagBit 4 dp + flagBit 3 ml) / 8 % 2 == 1) = ml := by
  cases dp <;> cases ml <;> decide

theorem bit_sleep (m : Nat) (ifl sl : Bool) :
    ((m * 32 + flagBit 3 ifl + flagBit 2 sl) / 4 % 2 == 1) = sl := by
  cases ifl <;> cases sl <;> simp [flagBit] <;> omega

theorem bit_ifeel (m : Nat) (ifl sl : Bool) :
    ((m * 32 + flagBit 3 ifl + flagBit 2 sl) / 8 % 2 == 1) = ifl := by
  cases ifl <;> cases sl <;> simp [flagBit] <;> omega

/-- C8: for every `AirCondState` whose fields are in range (the enum fields by
typing, the 5-bit temperature field by hypothesis), unpacking the bytes
produced by `prepare_and_pack` yields a state with the same value for every
semantic field — only `magic1` changes, to the `0x0F` that
`prepare_and_pack` forces — and the `magic1` nibble of the packed form (the
low nibble of byte 2) is `0x0F`. -/
theorem c8_aircond_roundtrip (s : AirCondState) (h : s.target_temp_int < 32) :
    unpackAirCondState (prepareAndPack s) = some { s with magic1 := 0x0F } ∧
    (prepareAndPack s).getD 2 0 = 0x0F := by
  obtain ⟨pw, tti, swv, swh, md, mg, fs, pr, sl, ifl, hl, cl, dp, ml⟩ := s
  dsimp only at h
  have hsv := swVert_val_lt swv
  have hsh := swHoriz_val_lt swh
  have hmd := mode_val_lt md
  have hfs := speed_val_lt fs
  have hpr := preset_val_lt pr
  have e0a : (tti % 32 * 8 + swv.val) % 8 = swv.val := by omega
  have e0b : (tti % 32 * 8 + swv.val) / 8 % 32 = tti := by omega
  have e1 : swh.val % 8 = swh.val := by omega
  have e3 : fs.val % 8 = fs.val := by omega
  have e4 : pr.val % 4 = pr.val := by omega
  have hifl : flagBit 3 ifl = 8 ∨ flagBit 3 ifl = 0 := by
    cases ifl <;> simp [flagBit]
  have hsl : flagBit 2 sl = 4 ∨ flagBit 2 sl = 0 := by
    cases sl <;> simp [flagBit]
  have e5a : (md.val * 32 + flagBit 3 ifl + flagBit 2 sl) / 32 % 8 = md.val := by omega
  constructor
  · simp only [prepareAndPack, packAirCondState, unpackAirCondState]
    simp only [List.getD]
    norm_num [e0a, e0b, e5a]
    simp only [e1, e3, e4, decode_swVert_val, decode_swHoriz_val,
      decode_mode_val, decode_speed_val, decode_preset_val]
    simp only [bit_power pw cl hl, bit_clean pw cl hl, bit_health pw cl hl,
      bit_display dp ml, bit_mildew dp ml, bit_sleep md.val ifl sl,
      bit_ifeel md.val ifl sl]
  · rfl

/-- Witness for C8 at a concrete state. -/
theorem c8_aircond_roundtrip_witness :
    (AirCondState.target_temp_int
        ⟨true, 24, .pos2, .on, .cool, 3, .auto, .turbo,
          true, false, true, false, true, false⟩ < 32) ∧
    (unpackAirCondState (prepareAndPack
        ⟨true, 24, .pos2, .on, .cool, 3, .auto, .turbo,
          true, false, true, false, true, false⟩) =
      some { (⟨true, 24, .pos2, .on, .cool, 3, .auto, .turbo,
          true, false, true, false, true, false⟩ : AirCondState) with
          magic1 := 0x0F } ∧
      (prepareAndPack ⟨true, 24, .pos2, .on, .cool, 3, .auto, .turbo,
          true, false, true, false, true, false⟩).getD 2 0 = 0x0F) :=
  ⟨by decide, c8_aircond_roundtrip _ (by decide)⟩

/-- Rust `f32 as u8` for a finite float modelled as a rational: truncation
toward zero, saturating at 0 and 255. -/
def rustF32ToU8 (q : ℚ) : Nat := if q ≤ 0 then 0 else min 255 ⌊q⌋.toNat

/-- Embedding of `AirCondState::set_target_temp`: reject inputs outside
`[16.0, 32.0]`, otherwise store `input as u8 - 8` in the 5-bit field.
Temperatures are modelled as exact rationals: every `f32` is a rational, and
on `[16, 32]` the comparisons, the truncating cast and the later `+ 8.0` are
all exact, so the model loses nothing. -/
def set_target_temp (s : AirCondState) (input : ℚ) : Except String AirCondState :=
  if input < 16 ∨ input > 32 then
    .error "Target temperature is out of range (16-32)"
  else .ok { s with target_temp_int := rustF32ToU8 input - 8 }

/-- Embedding of `AirCondState::get_target_temp`: `target_temp_int as f32 + 8.0`. -/
def get_target_temp (s : AirCondState) : ℚ := (s.target_temp_int : ℚ) + 8

/-- C9: for `t ∈ [16.0, 32.0]`, `set_target_temp(t)` succeeds and a subsequent
`get_target_temp()` returns `⌊t⌋`; outside the range it fails with the
out-of-range (`InvalidTemperature`) error. -/
theorem c9_set_get_target_temp (s : AirCondState) (t : ℚ) :
    (16 ≤ t ∧ t ≤ 32 →
      ∃ s', set_target_temp s t = .ok s' ∧ get_target_temp s' = ⌊t⌋) ∧
    ((t < 16 ∨ 32 < t) →
      set_target_temp s t = .error "Target temperature is out of range (16-32)") := by
  constructor
  · rintro ⟨h1, h2⟩
    have hg : ¬(t < 16 ∨ t > 32) := by
      push_neg
      exact ⟨h1, h2⟩
    refine ⟨_, by rw [set_target_temp, if_neg hg], ?_⟩
    have hf1 : (16 : ℤ) ≤ ⌊t⌋ := by
      rw [Int.le_floor]
      exact_mod_cast h1
    have hf2 : ⌊t⌋ ≤ 32 := by
      have h32 : ⌊t⌋ ≤ ⌊(32 : ℚ)⌋ := Int.floor_le_floor h2
      simpa using h32
    have hpos : ¬ t ≤ 0 := by linarith
    have hcast : rustF32ToU8 t = ⌊t⌋.toNat := by
      rw [rustF32ToU8, if_neg hpos]
      omega
    simp only [get_target_temp, hcast]
    have h8 : 8 ≤ ⌊t⌋.toNat := by omega
    push_cast [Nat.cast_sub h8]
    have hnn : ((⌊t⌋.toNat : ℤ)) = ⌊t⌋ := Int.toNat_of_nonneg (by omega)
    have hq : ((⌊t⌋.toNat : ℚ)) = (⌊t⌋ : ℚ) := by exact_mod_cast congrArg (fun z : ℤ => (z : ℚ)) hnn
    rw [hq]
    ring
  · intro h
    rw [set_target_temp, if_pos h]

/-- Witness for C9 at `t = 33/2` (in range) and `t = 33` (out of range). -/
theorem c9_set_get_target_temp_witness :
    ((16 : ℚ) ≤ 33 / 2 ∧ (33 / 2 : ℚ) ≤ 32) ∧
    (∃ s', set_target_temp
        ⟨false, 0, .on, .on, .auto, 0, .noSpeed, .normal,
          false, false, false, false, false, false⟩ (33 / 2) = .ok s' ∧
      get_target_temp s' = ⌊(33 / 2 : ℚ)⌋) ∧
    (((33 : ℚ) < 16 ∨ (32 : ℚ) < 33) ∧
      set_target_temp
        ⟨false, 0, .on, .on, .auto, 0, .noSpeed, .normal,
          false, false, false, false, false, false⟩ 33 =
        .error "Target temperature is out of range (16-32)") :=
  ⟨⟨by norm_num, by norm_num⟩,
   (c9_set_get_target_temp _ (33 / 2)).1 ⟨by norm_num, by norm_num⟩,
   Or.inr (by norm_num),
   (c9_set_get_target_temp _ 33).2 (Or.inr (by norm_num))⟩

/-- `REMOTE_CODES` from `remote.rs`: model code to friendly model name. -/
def REMOTE_CODES : List (Nat × String) :=
  [(0x520B, "RM4 Pro"), (0x5213, "RM4 Pro"), (0x5218, "RM4C Pro"),
   (0x6026, "RM4 Pro"), (0x6184, "RMC4 Pro"), (0x61A2, "RM4 Pro"),
   (0x649B, "RM4 Pro"), (0x653C, "RM4 Pro")]

/-- `HVAC_CODES` from `hvac.rs`. -/
def HVAC_CODES : List (Nat × String) :=
  [(0x4E2A, "Licensed manufacturer")]

/-- `DiscoveryResponse` from `network/discovery.rs` (128 bytes): model code at
52 (LE u16), reversed MAC at 58, 62-byte name at 64, lock bit in byte 127. -/
structure DiscoveryResponse where
  model_code : Nat
  mac : List Nat
  dname : List Nat
  is_locked : Bool
  deriving DecidableEq, Repr

/-- Embedding of the `packed_struct` unpack of `DiscoveryResponse` from a
128-byte buffer. -/
def parseDiscoveryResponse (bytes : List Nat) : DiscoveryResponse :=
  { model_code := readU16LE bytes 52
    mac := (bytes.drop 58).take 6
    dname := (bytes.drop 64).take 62
    is_locked := bytes.getD 127 0 / 128 % 2 == 1 }

/-- The two variants of `Device` the discovery classifier can produce. -/
inductive DeviceKind where
  | remote
  | hvac
  deriving DecidableEq, Repr

/-- Errors of discovery classification. -/
inductive DiscoveryError where
  | invalidResponse
  | unknownModel (code : Nat)
  deriving DecidableEq, Repr

/-- Modelled from the spec: `create_device_from_packet` in `device.rs`.  The
`device.rs` in the snapshot is a stale revision — its `Device` enum has no
`Hvac` variant, while `hvac.rs` (same snapshot) constructs `Device::Hvac`, so
the snapshot cannot compile as-is.  Per the spec: replies that are not exactly
128 bytes are rejected; the model code is looked up first in the Remote table
and then in the HVAC table; unknown codes fail with `UnknownModel(code)`.
(The subsequent `authenticate` network call is outside the embedding.) -/
def create_device_from_packet (bytes : List Nat) : Except DiscoveryError DeviceKind :=
  if bytes.length ≠ 128 then .error .invalidResponse
  else if (parseDiscoveryResponse bytes).model_code ∈ REMOTE_CODES.map Prod.fst then
    .ok .remote
  else if (parseDiscoveryResponse bytes).model_code ∈ HVAC_CODES.map Prod.fst then
    .ok .hvac
  else .error (.unknownModel (parseDiscoveryResponse bytes).model_code)

/-- C2: for every 128-byte discovery response, a model code in the Remote
table yields the Remote variant, a code in the HVAC table yields the Hvac
variant, and the classification fails with `UnknownModel(code)` exactly when
the code is in neither table. -/
theorem c2_discovery_classification (bytes : List Nat) (h : bytes.length = 128) :
    (readU16LE bytes 52 ∈ REMOTE_CODES.map Prod.fst →
      create_device_from_packet bytes = .ok .remote) ∧
    (readU16LE bytes 52 ∈ HVAC_CODES.map Prod.fst →
      create_device_from_packet bytes = .ok .hvac) ∧
    (∀ c, create_device_from_packet bytes = .error (.unknownModel c) ↔
      (c = readU16LE bytes 52 ∧ c ∉ REMOTE_CODES.map Prod.fst ∧
        c ∉ HVAC_CODES.map Prod.fst)) := by
  have hne : ¬ bytes.length ≠ 128 := by omega
  have hmc : (parseDiscoveryResponse bytes).model_code = readU16LE bytes 52 := rfl
  refine ⟨?_, ?_, ?_⟩
  · intro hr
    rw [create_device_from_packet, hmc, if_neg hne, if_pos hr]
  · intro hh
    have hr : readU16LE bytes 52 ∉ REMOTE_CODES.map Prod.fst := by
      simp only [HVAC_CODES, List.map, List.mem_cons, List.not_mem_nil, or_false] at hh
      rw [hh]
      decide
    rw [create_device_from_packet, hmc, if_neg hne, if_neg hr, if_pos hh]
  · intro c
    by_cases hr : readU16LE bytes 52 ∈ REMOTE_CODES.map Prod.fst
    · rw [create_device_from_packet, hmc, if_neg hne, if_pos hr]
      simp only [reduceCtorEq, false_iff, not_and]
      intro hc
      rw [hc]
      exact fun hnr _ => hnr hr
    · by_cases hh : readU16LE bytes 52 ∈ HVAC_CODES.map Prod.fst
      · rw [create_device_from_packet, hmc, if_neg hne, if_neg hr, if_pos hh]
        simp only [reduceCtorEq, false_iff, not_and]
        intro hc
        rw [hc]
        exact fun _ hnh => hnh hh
      · rw [create_device_from_packet, hmc, if_neg hne, if_neg hr, if_neg hh]
        constructor
        · intro he
          have h2 : DiscoveryError.unknownModel (readU16LE bytes 52) =
              .unknownModel c := Except.error.inj he
          have hc : readU16LE bytes 52 = c := by injection h2
          exact ⟨hc.symm, fun hcc => hr (hc ▸ hcc), fun hcc => hh (hc ▸ hcc)⟩
        · rintro ⟨hc, -, -⟩
          rw [hc]

/-- Witness for C2 at concrete 128-byte responses carrying a Remote code
(0x649B), the HVAC code (0x4E2A), and an unknown code (0x1234). -/
theorem c2_discovery_classification_witness :
    create_device_from_packet
      (List.replicate 52 0 ++ [0x9B, 0x64] ++ List.replicate 74 0) = .ok .remote ∧
    create_device_from_packet
      (List.replicate 52 0 ++ [0x2A, 0x4E] ++ List.replicate 74 0) = .ok .hvac ∧
    create_device_from_packet
      (List.replicate 52 0 ++ [0x34, 0x12] ++ List.replicate 74 0) =
      .error (.unknownModel 0x1234) :=
  ⟨(c2_discovery_classification _ (by decide)).1 (by decide),
   (c2_discovery_classification _ (by decide)).2.1 (by decide),
   ((c2_discovery_classification _ (by decide)).2.2 0x1234).mpr
     ⟨by decide, by decide, by decide⟩⟩

/-- Multiplication by `x` in GF(2^8) with the AES reduction polynomial. -/
def xtime (b : Nat) : Nat :=
  ((2 * b) % 256) ^^^ (if 128 ≤ b then 27 else 0)

theorem xor_left_comm (a b c : Nat) : a ^^^ (b ^^^ c) = b ^^^ (a ^^^ c) := by
  rw [← Nat.xor_assoc, Nat.xor_comm a b, Nat.xor_assoc]

theorem xor_mix (a b c d : Nat) : (a ^^^ b) ^^^ (c ^^^ d) = (a ^^^ c) ^^^ (b ^^^ d) := by
  rw [Nat.xor_assoc, xor_left_comm b c d, ← Nat.xor_assoc]

theorem ge128_iff_testBit7 {z : Nat} (hz : z < 256) : 128 ≤ z ↔ z.testBit 7 = true := by
  rw [Nat.testBit_to_div_mod]
  simp only [decide_eq_true_eq]
  omega

theorem double_mod_xor (x y : Nat) :
    (2 * (x ^^^ y)) % 256 = ((2 * x) % 256) ^^^ ((2 * y) % 256) := by
  apply Nat.eq_of_testBit_eq
  intro i
  have h2 : ∀ w : Nat, 2 * w = w <<< 1 := fun w => by
    rw [Nat.shiftLeft_eq]
    ring
  rw [h2, h2, h2, show (256 : Nat) = 2 ^ 8 from rfl]
  simp only [Nat.testBit_mod_two_pow, Nat.testBit_shiftLeft, Nat.testBit_xor]
  by_cases h8 : i < 8 <;> by_cases h1 : 1 ≤ i <;> simp [h8, h1]

theorem xtime_lt (b : Nat) : xtime b < 256 := by
  have h1 : (2 * b) % 256 < 256 := Nat.mod_lt _ (by norm_num)
  have h2 : (if 128 ≤ b then 27 else 0) < 256 := by split <;> norm_num
  calc xtime b < 2 ^ 8 :=
        Nat.xor_lt_two_pow (n := 8) h1 h2
    _ = 256 := rfl

theorem xtime_linear {x y : Nat} (hx : x < 256) (hy : y < 256) :
    xtime (x ^^^ y) = xtime x ^^^ xtime y := by
  have hxy : x ^^^ y < 256 := Nat.xor_lt_two_pow (n := 8) hx hy
  have hx7 : x.testBit 7 = decide (128 ≤ x) := by
    by_cases hbx : 128 ≤ x
    · simp [hbx, (ge128_iff_testBit7 hx).mp hbx]
    · simp only [hbx, decide_False]
      exact eq_false_of_ne_true fun ht => hbx ((ge128_iff_testBit7 hx).mpr ht)
  have hy7 : y.testBit 7 = decide (128 ≤ y) := by
    by_cases hby : 128 ≤ y
    · simp [hby, (ge128_iff_testBit7 hy).mp hby]
    · simp only [hby, decide_False]
      exact eq_false_of_ne_true fun ht => hby ((ge128_iff_testBit7 hy).mpr ht)
  have hxy7 : 128 ≤ (x ^^^ y) ↔ ((decide (128 ≤ x) != decide (128 ≤ y)) = true) := by
    rw [ge128_iff_testBit7 hxy, Nat.testBit_xor, hx7, hy7]
  unfold xtime
  rw [double_mod_xor, xor_mix]
  congr 1
  by_cases hbx : 128 ≤ x <;> by_cases hby : 128 ≤ y <;>
    simp only [hbx, hby, decide_True, decide_False, bne_self_eq_false,
      Bool.false_eq_true, iff_false, bne_iff_ne, ne_eq, not_true_eq_false,
      not_false_eq_true, iff_true, Bool.true_eq_false] at hxy7 <;>
    simp [hbx, hby, hxy7]

/-- GF(2^8) multiplication by 3. -/
def mul3 (b : Nat) : Nat := xtime b ^^^ b

/-- GF(2^8) multiplication by 9 = x^3 + 1. -/
def mul9 (b : Nat) : Nat := xtime (xtime (xtime b)) ^^^ b

/-- GF(2^8) multiplication by 11 = x^3 + x + 1. -/
def mul11 (b : Nat) : Nat := (xtime (xtime (xtime b)) ^^^ xtime b) ^^^ b

/-- GF(2^8) multiplication by 13 = x^3 + x^2 + 1. -/
def mul13 (b : Nat) : Nat := (xtime (xtime (xtime b)) ^^^ xtime (xtime b)) ^^^ b

/-- GF(2^8) multiplication by 14 = x^3 + x^2 + x. -/
def mul14 (b : Nat) : Nat :=
  (xtime (xtime (xtime b)) ^^^ xtime (xtime b)) ^^^ xtime b

theorem xor_lt_256 {a b : Nat} (ha : a < 256) (hb : b < 256) : a ^^^ b < 256 :=
  Nat.xor_lt_two_pow (n := 8) ha hb

theorem mul3_lt {b : Nat} (hb : b < 256) : mul3 b < 256 :=
  xor_lt_256 (xtime_lt b) hb

theorem mul9_lt {b : Nat} (hb : b < 256) : mul9 b < 256 :=
  xor_lt_256 (xtime_lt _) hb

theorem mul11_lt {b : Nat} (hb : b < 256) : mul11 b < 256 :=
  xor_lt_256 (xor_lt_256 (xtime_lt _) (xtime_lt _)) hb

theorem mul13_lt {b : Nat} (hb : b < 256) : mul13 b < 256 :=
  xor_lt_256 (xor_lt_256 (xtime_lt _) (xtime_lt _)) hb

theorem mul14_lt (b : Nat) : mul14 b < 256 :=
  xor_lt_256 (xor_lt_256 (xtime_lt _) (xtime_lt _)) (xtime_lt _)

theorem xtime2_linear {x y : Nat} (hx : x < 256) (hy : y < 256) :
    xtime (xtime (x ^^^ y)) = xtime (xtime x) ^^^ xtime (xtime y) := by
  rw [xtime_linear hx hy, xtime_linear (xtime_lt x) (xtime_lt y)]

theorem xtime3_linear {x y : Nat} (hx : x < 256) (hy : y < 256) :
    xtime (xtime (xtime (x ^^^ y))) =
      xtime (xtime (xtime x)) ^^^ xtime (xtime (xtime y)) := by
  rw [xtime2_linear hx hy, xtime_linear (xtime_lt _) (xtime_lt _)]

theorem mul3_linear {x y : Nat} (hx : x < 256) (hy : y < 256) :
    mul3 (x ^^^ y) = mul3 x ^^^ mul3 y := by
  unfold mul3
  rw [xtime_linear hx hy, xor_mix]

theorem mul9_linear {x y : Nat} (hx : x < 256) (hy : y < 256) :
    mul9 (x ^^^ y) = mul9 x ^^^ mul9 y := by
  unfold mul9
  rw [xtime3_linear hx hy, xor_mix]

theorem mul11_linear {x y : Nat} (hx : x < 256) (hy : y < 256) :
    mul11 (x ^^^ y) = mul11 x ^^^ mul11 y := by
  unfold mul11
  rw [xtime3_linear hx hy, xtime_linear hx hy]
  simp only [Nat.xor_assoc, Nat.xor_comm, xor_left_comm]

theorem mul13_linear {x y : Nat} (hx : x < 256) (hy : y < 256) :
    mul13 (x ^^^ y) = mul13 x ^^^ mul13 y := by
  unfold mul13
  rw [xtime3_linear hx hy, xtime2_linear hx hy]
  simp only [Nat.xor_assoc, Nat.xor_comm, xor_left_comm]

theorem mul14_linear {x y : Nat} (hx : x < 256) (hy : y < 256) :
    mul14 (x ^^^ y) = mul14 x ^^^ mul14 y := by
  unfold mul14
  rw [xtime3_linear hx hy, xtime2_linear hx hy, xtime_linear hx hy]
  simp only [Nat.xor_assoc, Nat.xor_comm, xor_left_comm]

/-- Column coefficient of the product `invMix * mix` acting on the same input
position (the diagonal of the circulant product: must be the identity). -/
def gDiag (a : Nat) : Nat := mul14 (xtime a) ^^^ mul11 a ^^^ mul13 a ^^^ mul9 (mul3 a)

/-- First off-diagonal coefficient (must be zero). -/
def gOff1 (a : Nat) : Nat := mul14 (mul3 a) ^^^ mul11 (xtime a) ^^^ mul13 a ^^^ mul9 a

/-- Second off-diagonal coefficient (must be zero). -/
def gOff2 (a : Nat) : Nat := mul14 a ^^^ mul11 (mul3 a) ^^^ mul13 (xtime a) ^^^ mul9 a

/-- Third off-diagonal coefficient (must be zero). -/
def gOff3 (a : Nat) : Nat := mul14 a ^^^ mul11 a ^^^ mul13 (mul3 a) ^^^ mul9 (xtime a)

set_option maxHeartbeats 2000000 in
theorem gDiag_id_all : ∀ a ∈ List.range 256, gDiag a = a := by decide

set_option maxHeartbeats 2000000 in
theorem gOff1_zero_all : ∀ a ∈ List.range 256, gOff1 a = 0 := by decide

set_option maxHeartbeats 2000000 in
theorem gOff2_zero_all : ∀ a ∈ List.range 256, gOff2 a = 0 := by decide

set_option maxHeartbeats 2000000 in
theorem gOff3_zero_all : ∀ a ∈ List.range 256, gOff3 a = 0 := by decide

theorem gDiag_id {a : Nat} (h : a < 256) : gDiag a = a :=
  gDiag_id_all a (List.mem_range.mpr h)

theorem gOff1_zero {a : Nat} (h : a < 256) : gOff1 a = 0 :=
  gOff1_zero_all a (List.mem_range.mpr h)

theorem gOff2_zero {a : Nat} (h : a < 256) : gOff2 a = 0 :=
  gOff2_zero_all a (List.mem_range.mpr h)

theorem gOff3_zero {a : Nat} (h : a < 256) : gOff3 a = 0 :=
  gOff3_zero_all a (List.mem_range.mpr h)

theorem mul14_linear4 {w x y z : Nat} (hw : w < 256) (hx : x < 256)
    (hy : y < 256) (hz : z < 256) :
    mul14 (w ^^^ x ^^^ y ^^^ z) = mul14 w ^^^ mul14 x ^^^ mul14 y ^^^ mul14 z := by
  rw [mul14_linear (xor_lt_256 (xor_lt_256 hw hx) hy) hz,
    mul14_linear (xor_lt_256 hw hx) hy, mul14_linear hw hx]

theorem mul11_linear4 {w x y z : Nat} (hw : w < 256) (hx : x < 256)
    (hy : y < 256) (hz : z < 256) :
    mul11 (w ^^^ x ^^^ y ^^^ z) = mul11 w ^^^ mul11 x ^^^ mul11 y ^^^ mul11 z := by
  rw [mul11_linear (xor_lt_256 (xor_lt_256 hw hx) hy) hz,
    mul11_linear (xor_lt_256 hw hx) hy, mul11_linear hw hx]

theorem mul13_linear4 {w x y z : Nat} (hw : w < 256) (hx : x < 256)
    (hy : y < 256) (hz : z < 256) :
    mul13 (w ^^^ x ^^^ y ^^^ z) = mul13 w ^^^ mul13 x ^^^ mul13 y ^^^ mul13 z := by
  rw [mul13_linear (xor_lt_256 (xor_lt_256 hw hx) hy) hz,
    mul13_linear (xor_lt_256 hw hx) hy, mul13_linear hw hx]

theorem mul9_linear4 {w x y z : Nat} (hw : w < 256) (hx : x < 256)
    (hy : y < 256) (hz : z < 256) :
    mul9 (w ^^^ x ^^^ y ^^^ z) = mul9 w ^^^ mul9 x ^^^ mul9 y ^^^ mul9 z := by
  rw [mul9_linear (xor_lt_256 (xor_lt_256 hw hx) hy) hz,
    mul9_linear (xor_lt_256 hw hx) hy, mul9_linear hw hx]

set_option maxHeartbeats 1000000 in
theorem xor_transpose16 (a0 a1 a2 a3 b0 b1 b2 b3 c0 c1 c2 c3 d0 d1 d2 d3 : Nat) :
    (a0 ^^^ b0 ^^^ c0 ^^^ d0) ^^^ (a1 ^^^ b1 ^^^ c1 ^^^ d1) ^^^
      (a2 ^^^ b2 ^^^ c2 ^^^ d2) ^^^ (a3 ^^^ b3 ^^^ c3 ^^^ d3) =
    (a0 ^^^ a1 ^^^ a2 ^^^ a3) ^^^ ((b0 ^^^ b1 ^^^ b2 ^^^ b3) ^^^
      ((c0 ^^^ c1 ^^^ c2 ^^^ c3) ^^^ (d0 ^^^ d1 ^^^ d2 ^^^ d3))) := by
  simp only [Nat.xor_assoc, Nat.xor_comm, xor_left_comm]

set_option maxHeartbeats 1000000 in
theorem xor_transpose16_rot1 (a0 a1 a2 a3 b0 b1 b2 b3 c0 c1 c2 c3 d0 d1 d2 d3 : Nat) :
    (a3 ^^^ b3 ^^^ c3 ^^^ d3) ^^^ (a0 ^^^ b0 ^^^ c0 ^^^ d0) ^^^
      (a1 ^^^ b1 ^^^ c1 ^^^ d1) ^^^ (a2 ^^^ b2 ^^^ c2 ^^^ d2) =
    (a0 ^^^ a1 ^^^ a2 ^^^ a3) ^^^ ((b0 ^^^ b1 ^^^ b2 ^^^ b3) ^^^
      ((c0 ^^^ c1 ^^^ c2 ^^^ c3) ^^^ (d0 ^^^ d1 ^^^ d2 ^^^ d3))) := by
  simp only [Nat.xor_assoc, Nat.xor_comm, xor_left_comm]

set_option maxHeartbeats 1000000 in
theorem xor_transpose16_rot2 (a0 a1 a2 a3 b0 b1 b2 b3 c0 c1 c2 c3 d0 d1 d2 d3 : Nat) :
    (a2 ^^^ b2 ^^^ c2 ^^^ d2) ^^^ (a3 ^^^ b3 ^^^ c3 ^^^ d3) ^^^
      (a0 ^^^ b0 ^^^ c0 ^^^ d0) ^^^ (a1 ^^^ b1 ^^^ c1 ^^^ d1) =
    (a0 ^^^ a1 ^^^ a2 ^^^ a3) ^^^ ((b0 ^^^ b1 ^^^ b2 ^^^ b3) ^^^
      ((c0 ^^^ c1 ^^^ c2 ^^^ c3) ^^^ (d0 ^^^ d1 ^^^ d2 ^^^ d3))) := by
  simp only [Nat.xor_assoc, Nat.xor_comm, xor_left_comm]

set_option maxHeartbeats 1000000 in
theorem xor_transpose16_rot3 (a0 a1 a2 a3 b0 b1 b2 b3 c0 c1 c2 c3 d0 d1 d2 d3 : Nat) :
    (a1 ^^^ b1 ^^^ c1 ^^^ d1) ^^^ (a2 ^^^ b2 ^^^ c2 ^^^ d2) ^^^
      (a3 ^^^ b3 ^^^ c3 ^^^ d3) ^^^ (a0 ^^^ b0 ^^^ c0 ^^^ d0) =
    (a0 ^^^ a1 ^^^ a2 ^^^ a3) ^^^ ((b0 ^^^ b1 ^^^ b2 ^^^ b3) ^^^
      ((c0 ^^^ c1 ^^^ c2 ^^^ c3) ^^^ (d0 ^^^ d1 ^^^ d2 ^^^ d3))) := by
  simp only [Nat.xor_assoc, Nat.xor_comm, xor_left_comm]

theorem invMix_mix_col {a b c d : Nat} (ha : a < 256) (hb : b < 256)
    (hc : c < 256) (hd : d < 256) :
    (mul14 (xtime a ^^^ mul3 b ^^^ c ^^^ d) ^^^ mul11 (a ^^^ xtime b ^^^ mul3 c ^^^ d) ^^^
        mul13 (a ^^^ b ^^^ xtime c ^^^ mul3 d) ^^^ mul9 (mul3 a ^^^ b ^^^ c ^^^ xtime d) = a) ∧
    (mul9 (xtime a ^^^ mul3 b ^^^ c ^^^ d) ^^^ mul14 (a ^^^ xtime b ^^^ mul3 c ^^^ d) ^^^
        mul11 (a ^^^ b ^^^ xtime c ^^^ mul3 d) ^^^ mul13 (mul3 a ^^^ b ^^^ c ^^^ xtime d) = b) ∧
    (mul13 (xtime a ^^^ mul3 b ^^^ c ^^^ d) ^^^ mul9 (a ^^^ xtime b ^^^ mul3 c ^^^ d) ^^^
        mul14 (a ^^^ b ^^^ xtime c ^^^ mul3 d) ^^^ mul11 (mul3 a ^^^ b ^^^ c ^^^ xtime d) = c) ∧
    (mul11 (xtime a ^^^ mul3 b ^^^ c ^^^ d) ^^^ mul13 (a ^^^ xtime b ^^^ mul3 c ^^^ d) ^^^
        mul9 (a ^^^ b ^^^ xtime c ^^^ mul3 d) ^^^ mul14 (mul3 a ^^^ b ^^^ c ^^^ xtime d) = d) := by
  have hxa := xtime_lt a
  have hxb := xtime_lt b
  have hxc := xtime_lt c
  have hxd := xtime_lt d
  have h3a := mul3_lt ha
  have h3b := mul3_lt hb
  have h3c := mul3_lt hc
  have h3d := mul3_lt hd
  refine ⟨?_, ?_, ?_, ?_⟩
  · rw [mul14_linear4 hxa h3b hc hd, mul11_linear4 ha hxb h3c hd,
      mul13_linear4 ha hb hxc h3d, mul9_linear4 h3a hb hc hxd,
      xor_transpose16 (mul14 (xtime a)) (mul11 a) (mul13 a) (mul9 (mul3 a))
        (mul14 (mul3 b)) (mul11 (xtime b)) (mul13 b) (mul9 b)
        (mul14 c) (mul11 (mul3 c)) (mul13 (xtime c)) (mul9 c)
        (mul14 d) (mul11 d) (mul13 (mul3 d)) (mul9 (xtime d)),
      show mul14 (xtime a) ^^^ mul11 a ^^^ mul13 a ^^^ mul9 (mul3 a) = gDiag a from rfl,
      show mul14 (mul3 b) ^^^ mul11 (xtime b) ^^^ mul13 b ^^^ mul9 b = gOff1 b from rfl,
      show mul14 c ^^^ mul11 (mul3 c) ^^^ mul13 (xtime c) ^^^ mul9 c = gOff2 c from rfl,
      show mul14 d ^^^ mul11 d ^^^ mul13 (mul3 d) ^^^ mul9 (xtime d) = gOff3 d from rfl,
      gDiag_id ha, gOff1_zero hb, gOff2_zero hc, gOff3_zero hd]
    simp
  · rw [mul9_linear4 hxa h3b hc hd, mul14_linear4 ha hxb h3c hd,
      mul11_linear4 ha hb hxc h3d, mul13_linear4 h3a hb hc hxd,
      xor_transpose16_rot1 (mul14 a) (mul11 a) (mul13 (mul3 a)) (mul9 (xtime a))
        (mul14 (xtime b)) (mul11 b) (mul13 b) (mul9 (mul3 b))
        (mul14 (mul3 c)) (mul11 (xtime c)) (mul13 c) (mul9 c)
        (mul14 d) (mul11 (mul3 d)) (mul13 (xtime d)) (mul9 d),
      show mul14 a ^^^ mul11 a ^^^ mul13 (mul3 a) ^^^ mul9 (xtime a) = gOff3 a from rfl,
      show mul14 (xtime b) ^^^ mul11 b ^^^ mul13 b ^^^ mul9 (mul3 b) = gDiag b from rfl,
      show mul14 (mul3 c) ^^^ mul11 (xtime c) ^^^ mul13 c ^^^ mul9 c = gOff1 c from rfl,
      show mul14 d ^^^ mul11 (mul3 d) ^^^ mul13 (xtime d) ^^^ mul9 d = gOff2 d from rfl,
      gOff3_zero ha, gDiag_id hb, gOff1_zero hc, gOff2_zero hd]
    simp
  · rw [mul13_linear4 hxa h3b hc hd, mul9_linear4 ha hxb h3c hd,
      mul14_linear4 ha hb hxc h3d, mul11_linear4 h3a hb hc hxd,
      xor_transpose16_rot2 (mul14 a) (mul11 (mul3 a)) (mul13 (xtime a)) (mul9 a)
        (mul14 b) (mul11 b) (mul13 (mul3 b)) (mul9 (xtime b))
        (mul14 (xtime c)) (mul11 c) (mul13 c) (mul9 (mul3 c))
        (mul14 (mul3 d)) (mul11 (xtime d)) (mul13 d) (mul9 d),
      show mul14 a ^^^ mul11 (mul3 a) ^^^ mul13 (xtime a) ^^^ mul9 a = gOff2 a from rfl,
      show mul14 b ^^^ mul11 b ^^^ mul13 (mul3 b) ^^^ mul9 (xtime b) = gOff3 b from rfl,
      show mul14 (xtime c) ^^^ mul11 c ^^^ mul13 c ^^^ mul9 (mul3 c) = gDiag c from rfl,
      show mul14 (mul3 d) ^^^ mul11 (xtime d) ^^^ mul13 d ^^^ mul9 d = gOff1 d from rfl,
      gOff2_zero ha, gOff3_zero hb, gDiag_id hc, gOff1_zero hd]
    simp
  · rw [mul11_linear4 hxa h3b hc hd, mul13_linear4 ha hxb h3c hd,
      mul9_linear4 ha hb hxc h3d, mul14_linear4 h3a hb hc hxd,
      xor_transpose16_rot3 (mul14 (mul3 a)) (mul11 (xtime a)) (mul13 a) (mul9 a)
        (mul14 b) (mul11 (mul3 b)) (mul13 (xtime b)) (mul9 b)
        (mul14 c) (mul11 c) (mul13 (mul3 c)) (mul9 (xtime c))
        (mul14 (xtime d)) (mul11 d) (mul13 d) (mul9 (mul3 d)),
      show mul14 (mul3 a) ^^^ mul11 (xtime a) ^^^ mul13 a ^^^ mul9 a = gOff1 a from rfl,
      show mul14 b ^^^ mul11 (mul3 b) ^^^ mul13 (xtime b) ^^^ mul9 b = gOff2 b from rfl,
      show mul14 c ^^^ mul11 c ^^^ mul13 (mul3 c) ^^^ mul9 (xtime c) = gOff3 c from rfl,
      show mul14 (xtime d) ^^^ mul11 d ^^^ mul13 d ^^^ mul9 (mul3 d) = gDiag d from rfl,
      gOff1_zero ha, gOff2_zero hb, gOff3_zero hc, gDiag_id hd]
    simp

/-- The AES S-box (FIPS-197), as implemented by the `aes` crate that the
source delegates encryption to. -/
def sbox : List Nat :=
  [
   0x63, 0x7C, 0x77, 0x7B, 0xF2, 0x6B, 0x6F, 0xC5, 0x30, 0x01, 0x67, 0x2B, 0xFE, 0xD7, 0xAB, 0x76,
   0xCA, 0x82, 0xC9, 0x7D, 0xFA, 0x59, 0x47, 0xF0, 0xAD, 0xD4, 0xA2, 0xAF, 0x9C, 0xA4, 0x72, 0xC0,
   0xB7, 0xFD, 0x93, 0x26, 0x36, 0x3F, 0xF7, 0xCC, 0x34, 0xA5, 0xE5, 0xF1, 0x71, 0xD8, 0x31, 0x15,
   0x04, 0xC7, 0x23, 0xC3, 0x18, 0x96, 0x05, 0x9A, 0x07, 0x12, 0x80, 0xE2, 0xEB, 0x27, 0xB2, 0x75,
   0x09, 0x83, 0x2C, 0x1A, 0x1B, 0x6E, 0x5A, 0xA0, 0x52, 0x3B, 0xD6, 0xB3, 0x29, 0xE3, 0x2F, 0x84,
   0x53, 0xD1, 0x00, 0xED, 0x20, 0xFC, 0xB1, 0x5B, 0x6A, 0xCB, 0xBE, 0x39, 0x4A, 0x4C, 0x58, 0xCF,
   0xD0, 0xEF, 0xAA, 0xFB, 0x43, 0x4D, 0x33, 0x85, 0x45, 0xF9, 0x02, 0x7F, 0x50, 0x3C, 0x9F, 0xA8,
   0x51, 0xA3, 0x40, 0x8F, 0x92, 0x9D, 0x38, 0xF5, 0xBC, 0xB6, 0xDA, 0x21, 0x10, 0xFF, 0xF3, 0xD2,
   0xCD, 0x0C, 0x13, 0xEC, 0x5F, 0x97, 0x44, 0x17, 0xC4, 0xA7, 0x7E, 0x3D, 0x64, 0x5D, 0x19, 0x73,
   0x60, 0x81, 0x4F, 0xDC, 0x22, 0x2A, 0x90, 0x88, 0x46, 0xEE, 0xB8, 0x14, 0xDE, 0x5E, 0x0B, 0xDB,
   0xE0, 0x32, 0x3A, 0x0A, 0x49, 0x06, 0x24, 0x5C, 0xC2, 0xD3, 0xAC, 0x62, 0x91, 0x95, 0xE4, 0x79,
   0xE7, 0xC8, 0x37, 0x6D, 0x8D, 0xD5, 0x4E, 0xA9, 0x6C, 0x56, 0xF4, 0xEA, 0x65, 0x7A, 0xAE, 0x08,
   0xBA, 0x78, 0x25, 0x2E, 0x1C, 0xA6, 0xB4, 0xC6, 0xE8, 0xDD, 0x74, 0x1F, 0x4B, 0xBD, 0x8B, 0x8A,
   0x70, 0x3E, 0xB5, 0x66, 0x48, 0x03, 0xF6, 0x0E, 0x61, 0x35, 0x57, 0xB9, 0x86, 0xC1, 0x1D, 0x9E,
   0xE1, 0xF8, 0x98, 0x11, 0x69, 0xD9, 0x8E, 0x94, 0x9B, 0x1E, 0x87, 0xE9, 0xCE, 0x55, 0x28, 0xDF,
   0x8C, 0xA1, 0x89, 0x0D, 0xBF, 0xE6, 0x42, 0x68, 0x41, 0x99, 0x2D, 0x0F, 0xB0, 0x54, 0xBB, 0x16]

/-- The inverse AES S-box. -/
def inv_sbox : List Nat :=
  [
   0x52, 0x09, 0x6A, 0xD5, 0x30, 0x36, 0xA5, 0x38, 0xBF, 0x40, 0xA3, 0x9E, 0x81, 0xF3, 0xD7, 0xFB,
   0x7C, 0xE3, 0x39, 0x82, 0x9B, 0x2F, 0xFF, 0x87, 0x34, 0x8E, 0x43, 0x44, 0xC4, 0xDE, 0xE9, 0xCB,
   0x54, 0x7B, 0x94, 0x32, 0xA6, 0xC2, 0x23, 0x3D, 0xEE, 0x4C, 0x95, 0x0B, 0x42, 0xFA, 0xC3, 0x4E,
   0x08, 0x2E, 0xA1, 0x66, 0x28, 0xD9, 0x24, 0xB2, 0x76, 0x5B, 0xA2, 0x49, 0x6D, 0x8B, 0xD1, 0x25,
   0x72, 0xF8, 0xF6, 0x64, 0x86, 0x68, 0x98, 0x16, 0xD4, 0xA4, 0x5C, 0xCC, 0x5D, 0x65, 0xB6, 0x92,
   0x6C, 0x70, 0x48, 0x50, 0xFD, 0xED, 0xB9, 0xDA, 0x5E, 0x15, 0x46, 0x57, 0xA7, 0x8D, 0x9D, 0x84,
   0x90, 0xD8, 0xAB, 0x00, 0x8C, 0xBC, 0xD3, 0x0A, 0xF7, 0xE4, 0x58, 0x05, 0xB8, 0xB3, 0x45, 0x06,
   0xD0, 0x2C, 0x1E, 0x8F, 0xCA, 0x3F, 0x0F, 0x02, 0xC1, 0xAF, 0xBD, 0x03, 0x01, 0x13, 0x8A, 0x6B,
   0x3A, 0x91, 0x11, 0x41, 0x4F, 0x67, 0xDC, 0xEA, 0x97, 0xF2, 0xCF, 0xCE, 0xF0, 0xB4, 0xE6, 0x73,
   0x96, 0xAC, 0x74, 0x22, 0xE7, 0xAD, 0x35, 0x85, 0xE2, 0xF9, 0x37, 0xE8, 0x1C, 0x75, 0xDF, 0x6E,
   0x47, 0xF1, 0x1A, 0x71, 0x1D, 0x29, 0xC5, 0x89, 0x6F, 0xB7, 0x62, 0x0E, 0xAA, 0x18, 0xBE, 0x1B,
   0xFC, 0x56, 0x3E, 0x4B, 0xC6, 0xD2, 0x79, 0x20, 0x9A, 0xDB, 0xC0, 0xFE, 0x78, 0xCD, 0x5A, 0xF4,
   0x1F, 0xDD, 0xA8, 0x33, 0x88, 0x07, 0xC7, 0x31, 0xB1, 0x12, 0x10, 0x59, 0x27, 0x80, 0xEC, 0x5F,
   0x60, 0x51, 0x7F, 0xA9, 0x19, 0xB5, 0x4A, 0x0D, 0x2D, 0xE5, 0x7A, 0x9F, 0x93, 0xC9, 0x9C, 0xEF,
   0xA0, 0xE0, 0x3B, 0x4D, 0xAE, 0x2A, 0xF5, 0xB0, 0xC8, 0xEB, 0xBB, 0x3C, 0x83, 0x53, 0x99, 0x61,
   0x17, 0x2B, 0x04, 0x7E, 0xBA, 0x77, 0xD6, 0x26, 0xE1, 0x69, 0x14, 0x63, 0x55, 0x21, 0x0C, 0x7D]

/-- S-box lookup (out-of-range indices cannot arise for byte inputs). -/
def sboxAt (b : Nat) : Nat := sbox.getD b 0

/-- Inverse S-box lookup. -/
def invSboxAt (b : Nat) : Nat := inv_sbox.getD b 0

theorem getD_lt_256 : ∀ l : List Nat, (∀ x ∈ l, x < 256) → ∀ i, l.getD i 0 < 256
  | [], _, i => by simp [List.getD]
  | x :: xs, h, 0 => h x (List.mem_cons_self x xs)
  | x :: xs, h, i + 1 => by
    have hx := getD_lt_256 xs (fun y hy => h y (List.mem_cons_of_mem x hy)) i
    simpa [List.getD] using hx

set_option maxHeartbeats 1000000 in
theorem sbox_entries_lt : ∀ x ∈ sbox, x < 256 := by decide

set_option maxHeartbeats 1000000 in
theorem inv_sbox_entries_lt : ∀ x ∈ inv_sbox, x < 256 := by decide

theorem sboxAt_lt (b : Nat) : sboxAt b < 256 :=
  getD_lt_256 sbox sbox_entries_lt b

theorem invSboxAt_lt (b : Nat) : invSboxAt b < 256 :=
  getD_lt_256 inv_sbox inv_sbox_entries_lt b

set_option maxHeartbeats 4000000 in
theorem sbox_inv_all : ∀ b ∈ List.range 256, invSboxAt (sboxAt b) = b := by decide

theorem sbox_inv {b : Nat} (h : b < 256) : invSboxAt (sboxAt b) = b :=
  sbox_inv_all b (List.mem_range.mpr h)

/-- One 16-byte AES state/block, flat in column-major order (byte `i` of the
block is state row `i % 4`, column `i / 4`, as in FIPS-197). -/
structure AesBlock where
  s0 : Nat
  s1 : Nat
  s2 : Nat
  s3 : Nat
  s4 : Nat
  s5 : Nat
  s6 : Nat
  s7 : Nat
  s8 : Nat
  s9 : Nat
  s10 : Nat
  s11 : Nat
  s12 : Nat
  s13 : Nat
  s14 : Nat
  s15 : Nat
  deriving DecidableEq, Repr

/-- All sixteen bytes of the block are in range. -/
def WfB (b : AesBlock) : Prop :=
  b.s0 < 256 ∧ b.s1 < 256 ∧ b.s2 < 256 ∧ b.s3 < 256 ∧
  b.s4 < 256 ∧ b.s5 < 256 ∧ b.s6 < 256 ∧ b.s7 < 256 ∧
  b.s8 < 256 ∧ b.s9 < 256 ∧ b.s10 < 256 ∧ b.s11 < 256 ∧
  b.s12 < 256 ∧ b.s13 < 256 ∧ b.s14 < 256 ∧ b.s15 < 256

instance (b : AesBlock) : Decidable (WfB b) := by
  unfold WfB
  infer_instance

/-- SubBytes. -/
def subBytes (s : AesBlock) : AesBlock :=
  ⟨sboxAt s.s0, sboxAt s.s1, sboxAt s.s2, sboxAt s.s3,
   sboxAt s.s4, sboxAt s.s5, sboxAt s.s6, sboxAt s.s7,
   sboxAt s.s8, sboxAt s.s9, sboxAt s.s10, sboxAt s.s11,
   sboxAt s.s12, sboxAt s.s13, sboxAt s.s14, sboxAt s.s15⟩

/-- InvSubBytes. -/
def invSubBytes (s : AesBlock) : AesBlock :=
  ⟨invSboxAt s.s0, invSboxAt s.s1, invSboxAt s.s2, invSboxAt s.s3,
   invSboxAt s.s4, invSboxAt s.s5, invSboxAt s.s6, invSboxAt s.s7,
   invSboxAt s.s8, invSboxAt s.s9, invSboxAt s.s10, invSboxAt s.s11,
   invSboxAt s.s12, invSboxAt s.s13, invSboxAt s.s14, invSboxAt s.s15⟩

/-- ShiftRows: row `r` of the state rotates left by `r`. -/
def shiftRows (s : AesBlock) : AesBlock :=
  ⟨s.s0, s.s5, s.s10, s.s15,
   s.s4, s.s9, s.s14, s.s3,
   s.s8, s.s13, s.s2, s.s7,
   s.s12, s.s1, s.s6, s.s11⟩

/-- InvShiftRows: row `r` of the state rotates right by `r`. -/
def invShiftRows (s : AesBlock) : AesBlock :=
  ⟨s.s0, s.s13, s.s10, s.s7,
   s.s4, s.s1, s.s14, s.s11,
   s.s8, s.s5, s.s2, s.s15,
   s.s12, s.s9, s.s6, s.s3⟩

/-- MixColumns: each 4-byte column is multiplied by the circulant
`(2, 3, 1, 1)` matrix over GF(2^8). -/
def mixColumns (s : AesBlock) : AesBlock :=
  ⟨xtime s.s0 ^^^ mul3 s.s1 ^^^ s.s2 ^^^ s.s3,
   s.s0 ^^^ xtime s.s1 ^^^ mul3 s.s2 ^^^ s.s3,
   s.s0 ^^^ s.s1 ^^^ xtime s.s2 ^^^ mul3 s.s3,
   mul3 s.s0 ^^^ s.s1 ^^^ s.s2 ^^^ xtime s.s3,
   xtime s.s4 ^^^ mul3 s.s5 ^^^ s.s6 ^^^ s.s7,
   s.s4 ^^^ xtime s.s5 ^^^ mul3 s.s6 ^^^ s.s7,
   s.s4 ^^^ s.s5 ^^^ xtime s.s6 ^^^ mul3 s.s7,
   mul3 s.s4 ^^^ s.s5 ^^^ s.s6 ^^^ xtime s.s7,
   xtime s.s8 ^^^ mul3 s.s9 ^^^ s.s10 ^^^ s.s11,
   s.s8 ^^^ xtime s.s9 ^^^ mul3 s.s10 ^^^ s.s11,
   s.s8 ^^^ s.s9 ^^^ xtime s.s10 ^^^ mul3 s.s11,
   mul3 s.s8 ^^^ s.s9 ^^^ s.s10 ^^^ xtime s.s11,
   xtime s.s12 ^^^ mul3 s.s13 ^^^ s.s14 ^^^ s.s15,
   s.s12 ^^^ xtime s.s13 ^^^ mul3 s.s14 ^^^ s.s15,
   s.s12 ^^^ s.s13 ^^^ xtime s.s14 ^^^ mul3 s.s15,
   mul3 s.s12 ^^^ s.s13 ^^^ s.s14 ^^^ xtime s.s15⟩

/-- InvMixColumns: each column is multiplied by the circulant
`(14, 11, 13, 9)` matrix over GF(2^8). -/
def invMixColumns (s : AesBlock) : AesBlock :=
  ⟨mul14 s.s0 ^^^ mul11 s.s1 ^^^ mul13 s.s2 ^^^ mul9 s.s3,
   mul9 s.s0 ^^^ mul14 s.s1 ^^^ mul11 s.s2 ^^^ mul13 s.s3,
   mul13 s.s0 ^^^ mul9 s.s1 ^^^ mul14 s.s2 ^^^ mul11 s.s3,
   mul11 s.s0 ^^^ mul13 s.s1 ^^^ mul9 s.s2 ^^^ mul14 s.s3,
   mul14 s.s4 ^^^ mul11 s.s5 ^^^ mul13 s.s6 ^^^ mul9 s.s7,
   mul9 s.s4 ^^^ mul14 s.s5 ^^^ mul11 s.s6 ^^^ mul13 s.s7,
   mul13 s.s4 ^^^ mul9 s.s5 ^^^ mul14 s.s6 ^^^ mul11 s.s7,
   mul11 s.s4 ^^^ mul13 s.s5 ^^^ mul9 s.s6 ^^^ mul14 s.s7,
   mul14 s.s8 ^^^ mul11 s.s9 ^^^ mul13 s.s10 ^^^ mul9 s.s11,
   mul9 s.s8 ^^^ mul14 s.s9 ^^^ mul11 s.s10 ^^^ mul13 s.s11,
   mul13 s.s8 ^^^ mul9 s.s9 ^^^ mul14 s.s10 ^^^ mul11 s.s11,
   mul11 s.s8 ^^^ mul13 s.s9 ^^^ mul9 s.s10 ^^^ mul14 s.s11,
   mul14 s.s12 ^^^ mul11 s.s13 ^^^ mul13 s.s14 ^^^ mul9 s.s15,
   mul9 s.s12 ^^^ mul14 s.s13 ^^^ mul11 s.s14 ^^^ mul13 s.s15,
   mul13 s.s12 ^^^ mul9 s.s13 ^^^ mul14 s.s14 ^^^ mul11 s.s15,
   mul11 s.s12 ^^^ mul13 s.s13 ^^^ mul9 s.s14 ^^^ mul14 s.s15⟩

/-- AddRoundKey: xor the round key into the state. -/
def addRoundKey (k s : AesBlock) : AesBlock :=
  ⟨s.s0 ^^^ k.s0, s.s1 ^^^ k.s1, s.s2 ^^^ k.s2, s.s3 ^^^ k.s3,
   s.s4 ^^^ k.s4, s.s5 ^^^ k.s5, s.s6 ^^^ k.s6, s.s7 ^^^ k.s7,
   s.s8 ^^^ k.s8, s.s9 ^^^ k.s9, s.s10 ^^^ k.s10, s.s11 ^^^ k.s11,
   s.s12 ^^^ k.s12, s.s13 ^^^ k.s13, s.s14 ^^^ k.s14, s.s15 ^^^ k.s15⟩

theorem addRoundKey_cancel (k s : AesBlock) :
    addRoundKey k (addRoundKey k s) = s := by
  cases s
  cases k
  simp [addRoundKey, Nat.xor_cancel_right]

theorem invShiftRows_shiftRows (s : AesBlock) : invShiftRows (shiftRows s) = s :=
  rfl

theorem invSubBytes_subBytes {s : AesBlock} (h : WfB s) :
    invSubBytes (subBytes s) = s := by
  obtain ⟨h0, h1, h2, h3, h4, h5, h6, h7, h8, h9, h10, h11, h12, h13, h14, h15⟩ := h
  cases s
  simp only [invSubBytes, subBytes, AesBlock.mk.injEq]
  exact ⟨sbox_inv h0, sbox_inv h1, sbox_inv h2, sbox_inv h3,
    sbox_inv h4, sbox_inv h5, sbox_inv h6, sbox_inv h7,
    sbox_inv h8, sbox_inv h9, sbox_inv h10, sbox_inv h11,
    sbox_inv h12, sbox_inv h13, sbox_inv h14, sbox_inv h15⟩

theorem invMixColumns_mixColumns {s : AesBlock} (h : WfB s) :
    invMixColumns (mixColumns s) = s := by
  obtain ⟨h0, h1, h2, h3, h4, h5, h6, h7, h8, h9, h10, h11, h12, h13, h14, h15⟩ := h
  cases s
  simp only [invMixColumns, mixColumns, AesBlock.mk.injEq]
  exact ⟨(invMix_mix_col h0 h1 h2 h3).1, (invMix_mix_col h0 h1 h2 h3).2.1,
    (invMix_mix_col h0 h1 h2 h3).2.2.1, (invMix_mix_col h0 h1 h2 h3).2.2.2,
    (invMix_mix_col h4 h5 h6 h7).1, (invMix_mix_col h4 h5 h6 h7).2.1,
    (invMix_mix_col h4 h5 h6 h7).2.2.1, (invMix_mix_col h4 h5 h6 h7).2.2.2,
    (invMix_mix_col h8 h9 h10 h11).1, (invMix_mix_col h8 h9 h10 h11).2.1,
    (invMix_mix_col h8 h9 h10 h11).2.2.1, (invMix_mix_col h8 h9 h10 h11).2.2.2,
    (invMix_mix_col h12 h13 h14 h15).1, (invMix_mix_col h12 h13 h14 h15).2.1,
    (invMix_mix_col h12 h13 h14 h15).2.2.1, (invMix_mix_col h12 h13 h14 h15).2.2.2⟩

theorem WfB_subBytes (s : AesBlock) : WfB (subBytes s) :=
  ⟨sboxAt_lt _, sboxAt_lt _, sboxAt_lt _, sboxAt_lt _,
   sboxAt_lt _, sboxAt_lt _, sboxAt_lt _, sboxAt_lt _,
   sboxAt_lt _, sboxAt_lt _, sboxAt_lt _, sboxAt_lt _,
   sboxAt_lt _, sboxAt_lt _, sboxAt_lt _, sboxAt_lt _⟩

theorem WfB_invSubBytes (s : AesBlock) : WfB (invSubBytes s) :=
  ⟨invSboxAt_lt _, invSboxAt_lt _, invSboxAt_lt _, invSboxAt_lt _,
   invSboxAt_lt _, invSboxAt_lt _, invSboxAt_lt _, invSboxAt_lt _,
   invSboxAt_lt _, invSboxAt_lt _, invSboxAt_lt _, invSboxAt_lt _,
   invSboxAt_lt _, invSboxAt_lt _, invSboxAt_lt _, invSboxAt_lt _⟩

theorem WfB_shiftRows {s : AesBlock} (h : WfB s) : WfB (shiftRows s) := by
  obtain ⟨h0, h1, h2, h3, h4, h5, h6, h7, h8, h9, h10, h11, h12, h13, h14, h15⟩ := h
  exact ⟨h0, h5, h10, h15, h4, h9, h14, h3, h8, h13, h2, h7, h12, h1, h6, h11⟩

theorem WfB_mixColumns {s : AesBlock} (h : WfB s) : WfB (mixColumns s) := by
  obtain ⟨h0, h1, h2, h3, h4, h5, h6, h7, h8, h9, h10, h11, h12, h13, h14, h15⟩ := h
  refine ⟨?_, ?_, ?_, ?_, ?_, ?_, ?_, ?_, ?_, ?_, ?_, ?_, ?_, ?_, ?_, ?_⟩ <;>
    first
      | exact xor_lt_256 (xor_lt_256 (xor_lt_256 (xtime_lt _) (mul3_lt (by assumption)))
          (by assumption)) (by assumption)
      | exact xor_lt_256 (xor_lt_256 (xor_lt_256 (by assumption) (xtime_lt _))
          (mul3_lt (by assumption))) (by assumption)
      | exact xor_lt_256 (xor_lt_256 (xor_lt_256 (by assumption) (by assumption))
          (xtime_lt _)) (mul3_lt (by assumption))
      | exact xor_lt_256 (xor_lt_256 (xor_lt_256 (mul3_lt (by assumption)) (by assumption))
          (by assumption)) (xtime_lt _)

theorem WfB_addRoundKey {k s : AesBlock} (hk : WfB k) (hs : WfB s) :
    WfB (addRoundKey k s) := by
  obtain ⟨k0, k1, k2, k3, k4, k5, k6, k7, k8, k9, k10, k11, k12, k13, k14, k15⟩ := hk
  obtain ⟨h0, h1, h2, h3, h4, h5, h6, h7, h8, h9, h10, h11, h12, h13, h14, h15⟩ := hs
  exact ⟨xor_lt_256 h0 k0, xor_lt_256 h1 k1, xor_lt_256 h2 k2, xor_lt_256 h3 k3,
    xor_lt_256 h4 k4, xor_lt_256 h5 k5, xor_lt_256 h6 k6, xor_lt_256 h7 k7,
    xor_lt_256 h8 k8, xor_lt_256 h9 k9, xor_lt_256 h10 k10, xor_lt_256 h11 k11,
    xor_lt_256 h12 k12, xor_lt_256 h13 k13, xor_lt_256 h14 k14, xor_lt_256 h15 k15⟩

/-- The rounds of AES encryption after the initial AddRoundKey, driven by the
list of remaining round keys: every key but the last gets a full round, the
last key gets the MixColumns-free final round. -/
def encRounds : List AesBlock → AesBlock → AesBlock
  | [], s => s
  | [k], s => addRoundKey k (shiftRows (subBytes s))
  | k :: k' :: ks, s =>
    encRounds (k' :: ks) (addRoundKey k (mixColumns (shiftRows (subBytes s))))

/-- The matching decryption rounds (naive inverse cipher): undo the final
round for the last key, then undo each full round in reverse order. -/
def decRounds : List AesBlock → AesBlock → AesBlock
  | [], s => s
  | [k], s => invSubBytes (invShiftRows (addRoundKey k s))
  | k :: k' :: ks, s =>
    invSubBytes (invShiftRows (invMixColumns (addRoundKey k (decRounds (k' :: ks) s))))

theorem decRounds_encRounds :
    ∀ (ks : List AesBlock) (s : AesBlock), (∀ k ∈ ks, WfB k) → WfB s →
      decRounds ks (encRounds ks s) = s
  | [], s, _, _ => rfl
  | [k], s, hk, hs => by
    simp only [encRounds, decRounds, addRoundKey_cancel, invShiftRows_shiftRows,
      invSubBytes_subBytes hs]
  | k :: k' :: ks, s, hk, hs => by
    have hk1 : WfB k := hk k (by simp)
    have hrest : ∀ x ∈ k' :: ks, WfB x := fun x hx => hk x (List.mem_cons_of_mem k hx)
    have hs1 : WfB (addRoundKey k (mixColumns (shiftRows (subBytes s)))) :=
      WfB_addRoundKey hk1 (WfB_mixColumns (WfB_shiftRows (WfB_subBytes s)))
    simp only [encRounds, decRounds,
      decRounds_encRounds (k' :: ks) _ hrest hs1,
      addRoundKey_cancel,
      invMixColumns_mixColumns (WfB_shiftRows (WfB_subBytes s)),
      invShiftRows_shiftRows, invSubBytes_subBytes hs]

theorem WfB_encRounds :
    ∀ (ks : List AesBlock) (s : AesBlock), (∀ k ∈ ks, WfB k) → WfB s →
      WfB (encRounds ks s)
  | [], s, _, hs => hs
  | [k], s, hk, hs =>
    WfB_addRoundKey (hk k (by simp)) (WfB_shiftRows (WfB_subBytes s))
  | k :: k' :: ks, s, hk, hs => by
    have hk1 : WfB k := hk k (by simp)
    have hrest : ∀ x ∈ k' :: ks, WfB x := fun x hx => hk x (List.mem_cons_of_mem k hx)
    exact WfB_encRounds (k' :: ks) _ hrest
      (WfB_addRoundKey hk1 (WfB_mixColumns (WfB_shiftRows (WfB_subBytes s))))

/-- One word (column) of the key schedule. -/
structure AesWord where
  w0 : Nat
  w1 : Nat
  w2 : Nat
  w3 : Nat
  deriving DecidableEq, Repr

/-- SubWord of the key schedule. -/
def subWord (w : AesWord) : AesWord :=
  ⟨sboxAt w.w0, sboxAt w.w1, sboxAt w.w2, sboxAt w.w3⟩

/-- RotWord of the key schedule. -/
def rotWord (w : AesWord) : AesWord := ⟨w.w1, w.w2, w.w3, w.w0⟩

/-- Bytewise xor of two words. -/
def xorWord (u v : AesWord) : AesWord :=
  ⟨u.w0 ^^^ v.w0, u.w1 ^^^ v.w1, u.w2 ^^^ v.w2, u.w3 ^^^ v.w3⟩

/-- The AES round constants. -/
def rcon (i : Nat) : Nat :=
  [0x01, 0x02, 0x04, 0x08, 0x10, 0x20, 0x40, 0x80, 0x1B, 0x36].getD (i - 1) 0

/-- Generate `n` further words of the AES-128 key schedule; `i` is the index
of the next word, `wm4` is word `i - 4` and `wm1` is word `i - 1`. -/
def expandWords : Nat → Nat → AesWord → AesWord → AesWord → AesWord → List AesWord
  | 0, _, _, _, _, _ => []
  | n + 1, i, wm4, wm3, wm2, wm1 =>
    let t := if i % 4 == 0 then
        xorWord (subWord (rotWord wm1)) ⟨rcon (i / 4), 0, 0, 0⟩
      else wm1
    let w := xorWord wm4 t
    w :: expandWords n (i + 1) wm3 wm2 wm1 w

/-- The 44 words of the AES-128 key schedule for a 16-byte key. -/
def keyScheduleWords (key : List Nat) : List AesWord :=
  let w0 : AesWord := ⟨key.getD 0 0, key.getD 1 0, key.getD 2 0, key.getD 3 0⟩
  let w1 : AesWord := ⟨key.getD 4 0, key.getD 5 0, key.getD 6 0, key.getD 7 0⟩
  let w2 : AesWord := ⟨key.getD 8 0, key.getD 9 0, key.getD 10 0, key.getD 11 0⟩
  let w3 : AesWord := ⟨key.getD 12 0, key.getD 13 0, key.getD 14 0, key.getD 15 0⟩
  [w0, w1, w2, w3] ++ expandWords 40 4 w0 w1 w2 w3

/-- Group consecutive word quadruples into round-key blocks. -/
def wordsToBlocks : List AesWord → List AesBlock
  | a :: b :: c :: d :: rest =>
    ⟨a.w0, a.w1, a.w2, a.w3, b.w0, b.w1, b.w2, b.w3,
     c.w0, c.w1, c.w2, c.w3, d.w0, d.w1, d.w2, d.w3⟩ :: wordsToBlocks rest
  | _ => []

/-- The 11 round keys of AES-128. -/
def roundKeys (key : List Nat) : List AesBlock :=
  wordsToBlocks (keyScheduleWords key)

/-- AES-128 block encryption. -/
def aesEncBlock (key : List Nat) (b : AesBlock) : AesBlock :=
  match roundKeys key with
  | [] => b
  | k0 :: rest => encRounds rest (addRoundKey k0 b)

/-- AES-128 block decryption (naive inverse cipher: same round keys in
reverse). -/
def aesDecBlock (key : List Nat) (b : AesBlock) : AesBlock :=
  match roundKeys key with
  | [] => b
  | k0 :: rest => addRoundKey k0 (decRounds rest b)

/-- Every word of the key schedule has in-range bytes. -/
def WfW (w : AesWord) : Prop :=
  w.w0 < 256 ∧ w.w1 < 256 ∧ w.w2 < 256 ∧ w.w3 < 256

theorem WfW_xorWord {u v : AesWord} (hu : WfW u) (hv : WfW v) : WfW (xorWord u v) :=
  ⟨xor_lt_256 hu.1 hv.1, xor_lt_256 hu.2.1 hv.2.1,
   xor_lt_256 hu.2.2.1 hv.2.2.1, xor_lt_256 hu.2.2.2 hv.2.2.2⟩

theorem WfW_subWord (w : AesWord) : WfW (subWord w) :=
  ⟨sboxAt_lt _, sboxAt_lt _, sboxAt_lt _, sboxAt_lt _⟩

theorem rcon_lt (i : Nat) : rcon i < 256 := by
  unfold rcon
  apply getD_lt_256
  decide

theorem WfW_expandWords :
    ∀ (n i : Nat) (wm4 wm3 wm2 wm1 : AesWord), WfW wm4 → WfW wm3 → WfW wm2 → WfW wm1 →
      ∀ w ∈ expandWords n i wm4 wm3 wm2 wm1, WfW w
  | 0, _, _, _, _, _, _, _, _, _ => by simp [expandWords]
  | n + 1, i, wm4, wm3, wm2, wm1, h4, h3, h2, h1 => by
    intro w hw
    have ht : WfW (if i % 4 == 0 then
        xorWord (subWord (rotWord wm1)) ⟨rcon (i / 4), 0, 0, 0⟩
      else wm1) := by
      split
      · exact WfW_xorWord (WfW_subWord _) ⟨rcon_lt _, by norm_num, by norm_num, by norm_num⟩
      · exact h1
    have hnew : WfW (xorWord wm4 (if i % 4 == 0 then
        xorWord (subWord (rotWord wm1)) ⟨rcon (i / 4), 0, 0, 0⟩
      else wm1)) := WfW_xorWord h4 ht
    simp only [expandWords, List.mem_cons] at hw
    rcases hw with rfl | hw
    · exact hnew
    · exact WfW_expandWords n (i + 1) wm3 wm2 wm1 _ h3 h2 h1 hnew w hw

theorem WfW_keyScheduleWords {key : List Nat} (hk : ∀ x ∈ key, x < 256) :
    ∀ w ∈ keyScheduleWords key, WfW w := by
  intro w hw
  have hb : ∀ i, key.getD i 0 < 256 := getD_lt_256 key hk
  simp only [keyScheduleWords, List.mem_append, List.mem_cons, List.not_mem_nil,
    or_false] at hw
  rcases hw with (rfl | rfl | rfl | rfl) | hw
  · exact ⟨hb 0, hb 1, hb 2, hb 3⟩
  · exact ⟨hb 4, hb 5, hb 6, hb 7⟩
  · exact ⟨hb 8, hb 9, hb 10, hb 11⟩
  · exact ⟨hb 12, hb 13, hb 14, hb 15⟩
  · exact WfW_expandWords 40 4 _ _ _ _ ⟨hb 0, hb 1, hb 2, hb 3⟩ ⟨hb 4, hb 5, hb 6, hb 7⟩
      ⟨hb 8, hb 9, hb 10, hb 11⟩ ⟨hb 12, hb 13, hb 14, hb 15⟩ w hw

theorem WfB_wordsToBlocks :
    ∀ ws : List AesWord, (∀ w ∈ ws, WfW w) → ∀ b ∈ wordsToBlocks ws, WfB b
  | a :: bq :: c :: d :: rest, h, b, hb => by
    simp only [wordsToBlocks, List.mem_cons] at hb
    have ha := h a (by simp)
    have hbq := h bq (by simp)
    have hc := h c (by simp)
    have hd := h d (by simp)
    rcases hb with rfl | hb
    · exact ⟨ha.1, ha.2.1, ha.2.2.1, ha.2.2.2, hbq.1, hbq.2.1, hbq.2.2.1, hbq.2.2.2,
        hc.1, hc.2.1, hc.2.2.1, hc.2.2.2, hd.1, hd.2.1, hd.2.2.1, hd.2.2.2⟩
    · exact WfB_wordsToBlocks rest (fun w hw => h w (by simp [hw])) b hb
  | [], _, b, hb => by simp [wordsToBlocks] at hb
  | [a], _, b, hb => by simp [wordsToBlocks] at hb
  | [a, bq], _, b, hb => by simp [wordsToBlocks] at hb
  | [a, bq, c], _, b, hb => by simp [wordsToBlocks] at hb

theorem WfB_roundKeys {key : List Nat} (hk : ∀ x ∈ key, x < 256) :
    ∀ b ∈ roundKeys key, WfB b :=
  WfB_wordsToBlocks _ (WfW_keyScheduleWords hk)

/-- AES-128 block decryption inverts encryption for in-range keys and states. -/
theorem aesDecBlock_aesEncBlock {key : List Nat} {b : AesBlock}
    (hk : ∀ x ∈ key, x < 256) (hb : WfB b) :
    aesDecBlock key (aesEncBlock key b) = b := by
  cases hrk : roundKeys key with
  | nil =>
    unfold aesEncBlock aesDecBlock
    rw [hrk]
  | cons k0 rest =>
    have hall : ∀ x ∈ k0 :: rest, WfB x := by
      rw [← hrk]
      exact WfB_roundKeys hk
    unfold aesEncBlock aesDecBlock
    rw [hrk]
    dsimp only
    rw [decRounds_encRounds rest _ (fun x hx => hall x (List.mem_cons_of_mem k0 hx))
        (WfB_addRoundKey (hall k0 (by simp)) hb),
      addRoundKey_cancel]

theorem WfB_aesEncBlock {key : List Nat} {b : AesBlock}
    (hk : ∀ x ∈ key, x < 256) (hb : WfB b) : WfB (aesEncBlock key b) := by
  cases hrk : roundKeys key with
  | nil =>
    unfold aesEncBlock
    rw [hrk]
    exact hb
  | cons k0 rest =>
    have hall : ∀ x ∈ k0 :: rest, WfB x := by
      rw [← hrk]
      exact WfB_roundKeys hk
    unfold aesEncBlock
    rw [hrk]
    dsimp only
    exact WfB_encRounds rest _ (fun x hx => hall x (List.mem_cons_of_mem k0 hx))
      (WfB_addRoundKey (hall k0 (by simp)) hb)

/-- Bytewise xor of two blocks (the CBC chaining operation; same bytewise xor
as AddRoundKey). -/
def xorBlock (u v : AesBlock) : AesBlock := addRoundKey u v

/-- Split a byte list into 16-byte blocks (the list length is a multiple of
16 wherever this is used). -/
def listToBlocks : List Nat → List AesBlock
  | b0 :: b1 :: b2 :: b3 :: b4 :: b5 :: b6 :: b7 ::
    b8 :: b9 :: b10 :: b11 :: b12 :: b13 :: b14 :: b15 :: rest =>
    ⟨b0, b1, b2, b3, b4, b5, b6, b7, b8, b9, b10, b11, b12, b13, b14, b15⟩ ::
      listToBlocks rest
  | _ => []

/-- The sixteen bytes of a block, in order. -/
def blockToList (b : AesBlock) : List Nat :=
  [b.s0, b.s1, b.s2, b.s3, b.s4, b.s5, b.s6, b.s7,
   b.s8, b.s9, b.s10, b.s11, b.s12, b.s13, b.s14, b.s15]

/-- Concatenate blocks back into a byte list. -/
def blocksToList : List AesBlock → List Nat
  | [] => []
  | b :: bs => blockToList b ++ blocksToList bs

/-- CBC encryption over blocks: each plaintext block is xored with the
previous ciphertext block (the IV first) before the block cipher. -/
def cbcEncBlocks (key : List Nat) (prev : AesBlock) : List AesBlock → List AesBlock
  | [] => []
  | p :: ps =>
    let c := aesEncBlock key (xorBlock prev p)
    c :: cbcEncBlocks key c ps

/-- CBC decryption over blocks. -/
def cbcDecBlocks (key : List Nat) (prev : AesBlock) : List AesBlock → List AesBlock
  | [] => []
  | c :: cs => xorBlock prev (aesDecBlock key c) :: cbcDecBlocks key c cs

theorem cbcDec_cbcEnc {key : List Nat} (hk : ∀ x ∈ key, x < 256) :
    ∀ (ps : List AesBlock) (prev : AesBlock), WfB prev → (∀ p ∈ ps, WfB p) →
      cbcDecBlocks key prev (cbcEncBlocks key prev ps) = ps
  | [], prev, _, _ => rfl
  | p :: ps, prev, hprev, hps => by
    have hp : WfB p := hps p (by simp)
    have hxp : WfB (xorBlock prev p) := WfB_addRoundKey hprev hp
    have hc : WfB (aesEncBlock key (xorBlock prev p)) := WfB_aesEncBlock hk hxp
    simp only [cbcEncBlocks, cbcDecBlocks,
      cbcDec_cbcEnc hk ps _ hc (fun q hq => hps q (List.mem_cons_of_mem p hq)),
      aesDecBlock_aesEncBlock hk hxp, List.cons.injEq, and_true]
    show addRoundKey prev (addRoundKey prev p) = p
    exact addRoundKey_cancel prev p

theorem listToBlocks_blocksToList :
    ∀ bs : List AesBlock, listToBlocks (blocksToList bs) = bs
  | [] => rfl
  | b :: bs => by
    cases b
    exact congrArg (List.cons _) (listToBlocks_blocksToList bs)

theorem blocksToList_length :
    ∀ bs : List AesBlock, (blocksToList bs).length = 16 * bs.length
  | [] => rfl
  | b :: bs => by
    simp only [blocksToList, blockToList, List.length_append, List.length_cons,
      blocksToList_length bs, List.length_nil]
    ring

theorem cbcEncBlocks_length (key : List Nat) :
    ∀ (ps : List AesBlock) (prev : AesBlock),
      (cbcEncBlocks key prev ps).length = ps.length
  | [], _ => rfl
  | p :: ps, prev => by
    simp only [cbcEncBlocks, List.length_cons, cbcEncBlocks_length key ps]

theorem WfB_blockOfBytes {b0 b1 b2 b3 b4 b5 b6 b7 b8 b9 b10 b11 b12 b13 b14 b15 : Nat}
    (h : ∀ x ∈ [b0, b1, b2, b3, b4, b5, b6, b7, b8, b9, b10, b11, b12, b13, b14, b15],
      x < 256) :
    WfB ⟨b0, b1, b2, b3, b4, b5, b6, b7, b8, b9, b10, b11, b12, b13, b14, b15⟩ := by
  refine ⟨?_, ?_, ?_, ?_, ?_, ?_, ?_, ?_, ?_, ?_, ?_, ?_, ?_, ?_, ?_, ?_⟩ <;>
    exact h _ (by simp)

/-- Zero padding to a 16-byte boundary, as applied by the `block_modes`
`ZeroPadding` policy before CBC encryption (no padding when already aligned). -/
def zeroPad16 (l : List Nat) : List Nat :=
  l ++ List.replicate ((16 - l.length % 16) % 16) 0

/-- Strip all trailing zero bytes, as the `ZeroPadding` unpad does after CBC
decryption. -/
def dropTrailingZeros (l : List Nat) : List Nat :=
  (l.reverse.dropWhile (· == 0)).reverse

/-- Embedding of `block_modes` `encrypt_vec` for `Cbc<Aes128, ZeroPadding>`:
zero-pad, then CBC-encrypt with the fixed IV block. -/
def encrypt_vec (key : List Nat) (iv : AesBlock) (msg : List Nat) : List Nat :=
  blocksToList (cbcEncBlocks key iv (listToBlocks (zeroPad16 msg)))

/-- Embedding of `block_modes` `decrypt_vec`: fails unless the input is
block-aligned, then CBC-decrypts and strips the zero padding. -/
def decrypt_vec (key : List Nat) (iv : AesBlock) (ct : List Nat) : Option (List Nat) :=
  if ct.length % 16 ≠ 0 then none
  else some (dropTrailingZeros (blocksToList (cbcDecBlocks key iv (listToBlocks ct))))

theorem zeroPad16_length_mod (l : List Nat) : (zeroPad16 l).length % 16 = 0 := by
  simp only [zeroPad16, List.length_append, List.length_replicate]
  omega

theorem blocksToList_listToBlocks (l : List Nat) (h : l.length % 16 = 0) :
    blocksToList (listToBlocks l) = l := by
  induction l using listToBlocks.induct with
  | case1 b0 b1 b2 b3 b4 b5 b6 b7 b8 b9 b10 b11 b12 b13 b14 b15 rest ih =>
    simp only [List.length_cons] at h
    simp only [listToBlocks, blocksToList, blockToList, List.cons_append,
      List.nil_append, List.cons.injEq, true_and]
    exact ih (by omega)
  | case2 l hne =>
    rcases l with _ | ⟨b0, _ | ⟨b1, _ | ⟨b2, _ | ⟨b3, _ | ⟨b4, _ | ⟨b5, _ | ⟨b6, _ |
      ⟨b7, _ | ⟨b8, _ | ⟨b9, _ | ⟨b10, _ | ⟨b11, _ | ⟨b12, _ | ⟨b13, _ | ⟨b14, _ |
      ⟨b15, rest⟩⟩⟩⟩⟩⟩⟩⟩⟩⟩⟩⟩⟩⟩⟩⟩
    · rfl
    iterate 15 simp at h
    exact absurd rfl
      (hne b0 b1 b2 b3 b4 b5 b6 b7 b8 b9 b10 b11 b12 b13 b14 b15 rest)

theorem WfB_listToBlocks (l : List Nat) (hl : ∀ x ∈ l, x < 256) :
    ∀ b ∈ listToBlocks l, WfB b := by
  induction l using listToBlocks.induct with
  | case1 b0 b1 b2 b3 b4 b5 b6 b7 b8 b9 b10 b11 b12 b13 b14 b15 rest ih =>
    intro b hb
    simp only [listToBlocks, List.mem_cons] at hb
    rcases hb with rfl | hb
    · exact WfB_blockOfBytes fun x hx => hl x (by
        simp only [List.mem_cons, List.not_mem_nil, or_false] at hx
        simp only [List.mem_cons]
        rcases hx with rfl | rfl | rfl | rfl | rfl | rfl | rfl | rfl | rfl | rfl |
          rfl | rfl | rfl | rfl | rfl | rfl <;> tauto)
    · exact ih (fun x hx => hl x (by simp [hx])) b hb
  | case2 l hne =>
    intro b hb
    rcases l with _ | ⟨b0, _ | ⟨b1, _ | ⟨b2, _ | ⟨b3, _ | ⟨b4, _ | ⟨b5, _ | ⟨b6, _ |
      ⟨b7, _ | ⟨b8, _ | ⟨b9, _ | ⟨b10, _ | ⟨b11, _ | ⟨b12, _ | ⟨b13, _ | ⟨b14, _ |
      ⟨b15, rest⟩⟩⟩⟩⟩⟩⟩⟩⟩⟩⟩⟩⟩⟩⟩⟩
    iterate 16 simp [listToBlocks] at hb
    exact absurd rfl
      (hne b0 b1 b2 b3 b4 b5 b6 b7 b8 b9 b10 b11 b12 b13 b14 b15 rest)

theorem dropWhile_replicate_zero_append (x : List Nat) :
    ∀ n, List.dropWhile (· == 0) (List.replicate n 0 ++ x) =
      List.dropWhile (· == 0) x
  | 0 => rfl
  | n + 1 => by
    simp only [List.replicate_succ, List.cons_append, List.dropWhile_cons]
    simp [dropWhile_replicate_zero_append x n]

theorem dropTrailingZeros_append_replicate (l : List Nat) (n : Nat) :
    dropTrailingZeros (l ++ List.replicate n 0) = dropTrailingZeros l := by
  unfold dropTrailingZeros
  rw [List.reverse_append, List.reverse_replicate, dropWhile_replicate_zero_append]

theorem dropTrailingZeros_spec (l : List Nat) :
    ∃ n, l = dropTrailingZeros l ++ List.replicate n 0 := by
  refine ⟨(List.takeWhile (· == 0) l.reverse).length, ?_⟩
  have h1 : List.takeWhile (· == 0) l.reverse =
      List.replicate (List.takeWhile (· == 0) l.reverse).length 0 := by
    apply List.eq_replicate_of_mem
    intro b hb
    have := List.mem_takeWhile_imp hb
    simp at this
    exact this
  calc l = l.reverse.reverse := (List.reverse_reverse l).symm
    _ = (List.takeWhile (· == 0) l.reverse ++ List.dropWhile (· == 0) l.reverse).reverse := by
        rw [List.takeWhile_append_dropWhile]
    _ = dropTrailingZeros l ++ (List.takeWhile (· == 0) l.reverse).reverse := by
        rw [List.reverse_append]
        rfl
    _ = dropTrailingZeros l ++ List.replicate (List.takeWhile (· == 0) l.reverse).length 0 := by
        rw [congrArg List.reverse h1, List.reverse_replicate]

theorem decrypt_encrypt_vec {key : List Nat} {iv : AesBlock} {msg : List Nat}
    (hk : ∀ x ∈ key, x < 256) (hiv : WfB iv) (hmsg : ∀ x ∈ msg, x < 256) :
    decrypt_vec key iv (encrypt_vec key iv msg) = some (dropTrailingZeros msg) := by
  have hpadbytes : ∀ x ∈ zeroPad16 msg, x < 256 := by
    intro x hx
    rcases List.mem_append.mp hx with hx | hx
    · exact hmsg x hx
    · have := List.eq_of_mem_replicate hx
      omega
  have hblocks : ∀ b ∈ listToBlocks (zeroPad16 msg), WfB b :=
    WfB_listToBlocks _ hpadbytes
  unfold decrypt_vec encrypt_vec
  rw [if_neg (by
    simp only [ne_eq, not_not, blocksToList_length]
    omega)]
  rw [listToBlocks_blocksToList, cbcDec_cbcEnc hk _ iv hiv hblocks,
    blocksToList_listToBlocks _ (zeroPad16_length_mod msg)]
  unfold zeroPad16
  rw [dropTrailingZeros_append_replicate]

/-- `constants::INITIAL_KEY`. -/
def INITIAL_KEY : List Nat :=
  [0x09, 0x76, 0x28, 0x34, 0x3F, 0xE9, 0x9E, 0x23,
   0x76, 0x5C, 0x15, 0x13, 0xAC, 0xCF, 0x8B, 0x02]

/-- `constants::INITIAL_VECTOR`, as the CBC IV block. -/
def ivBlock : AesBlock :=
  ⟨0x56, 0x2E, 0x17, 0x99, 0x6D, 0x09, 0x3D, 0x28,
   0xDD, 0xB3, 0xBA, 0x69, 0x5A, 0x2E, 0x6F, 0x58⟩

/-- `CommandMessage` from `network/command.rs` (the `size_bytes = 0x38`
header). -/
structure CommandMessage where
  magic_header : List Nat
  device_type : Nat
  packet_type : Nat
  count : Nat
  mac_reversed : List Nat
  id : Nat
  cchecksum : Nat
  payload_checksum : Nat
  deriving DecidableEq, Repr

/-- Embedding of `CommandMessage::with_count` (the packet type is supplied by
the `CommandTrait` instance of the inner message). -/
def commandWithCount (count devModelCode : Nat) (mac : List Nat) (id : Nat)
    (packetType : Nat) : CommandMessage :=
  { magic_header := [0x5A, 0xA5, 0xAA, 0x55, 0x5A, 0xA5, 0xAA, 0x55]
    device_type := devModelCode
    packet_type := packetType
    count := count ||| 0x8000
    mac_reversed := reverse_mac mac
    id := id
    cchecksum := 0
    payload_checksum := 0 }

/-- The header bytes before the envelope checksum field: magic at 0x00, then
zeros up to 0x20. -/
def cmdHdrPre (m : CommandMessage) : List Nat :=
  m.magic_header ++ List.replicate 24 0

/-- The header bytes after the envelope checksum field: two zero bytes, model
code at 0x24, packet type at 0x26, count at 0x28, reversed MAC at 0x2A,
auth-id at 0x30, payload checksum at 0x34, two trailing zero bytes. -/
def cmdHdrPost (m : CommandMessage) : List Nat :=
  [0, 0] ++ u16le m.device_type ++ u16le m.packet_type ++ u16le m.count ++
  m.mac_reversed ++ u32le m.id ++ u16le m.payload_checksum ++ [0, 0]

/-- Embedding of the `packed_struct` pack of the 0x38-byte command header. -/
def commandPackHeader (m : CommandMessage) : List Nat :=
  cmdHdrPre m ++ u16le m.cchecksum ++ cmdHdrPost m

/-- Embedding of `CommandMessage::pack_with_payload`: write the payload
checksum into the header, AES-CBC-encrypt the payload with the fixed IV,
compute the envelope checksum of header-with-zero-checksum plus ciphertext,
and emit the final header followed by the ciphertext. -/
def commandPackWithPayload (m : CommandMessage) (payload key : List Nat) :
    List Nat :=
  let m1 := { m with payload_checksum := checksum payload }
  let encrypted := encrypt_vec key ivBlock payload
  let appended := commandPackHeader m1 ++ encrypted
  let m2 := { m1 with cchecksum := checksum appended }
  commandPackHeader m2 ++ encrypted

/-- Embedding of `CommandMessage::unpack_with_payload`: reject short buffers,
zero bytes 0x20..0x21 in place, recompute the envelope checksum against the
stored field, then AES-CBC-decrypt from 0x38 on (`panicked` models the
`.expect` on a non-block-aligned ciphertext). -/
def commandUnpackWithPayload (bytes key : List Nat) : RRes (List Nat) :=
  if bytes.length < 0x38 then .err "Command is too short!"
  else
    let stored := readU16LE bytes 0x20
    let zeroed := (bytes.set 0x20 0).set 0x21 0
    if stored ≠ checksum zeroed then
      .err "Command checksum does not match actual checksum!"
    else
      match decrypt_vec key ivBlock (bytes.drop 0x38) with
      | none => .panicked
      | some d => .ok d

theorem set2_at_32 (pre : List Nat) (h : pre.length = 32) (a b : Nat) (tail : List Nat) :
    ((pre ++ (a :: b :: tail)).set 32 0).set 33 0 = pre ++ (0 :: 0 :: tail) := by
  have h1 : (pre ++ (a :: b :: tail)).set 32 0 = pre ++ (0 :: b :: tail) := by
    rw [List.set_append_right _ _ (by omega)]
    simp [h]
  rw [h1, List.set_append_right _ _ (by omega)]
  simp [h]

theorem getD_at_32 (pre : List Nat) (h : pre.length = 32) (a b : Nat) (tail : List Nat) :
    (pre ++ (a :: b :: tail)).getD 32 0 = a ∧
    (pre ++ (a :: b :: tail)).getD 33 0 = b := by
  constructor
  · rw [List.getD_append_right _ _ _ _ (by omega), h]
    rfl
  · rw [List.getD_append_right _ _ _ _ (by omega), h]
    rfl

set_option maxHeartbeats 2000000 in
/-- C4: for every payload and 16-byte key (and any count, model code, MAC and
auth-id), unpacking the output of `CommandMessage::pack_with_payload` with the
same key succeeds — the envelope checksum recomputed over the buffer with
bytes 0x20..0x22 zeroed equals the stored checksum, so no `ChecksumMismatch`
is raised — and returns the payload up to trailing `0x00` padding to a
16-byte boundary (the zero padding of the AES-CBC layer is stripped together
with any trailing zeros of the payload itself). -/
theorem c4_command_envelope_roundtrip (count devType id packetType : Nat)
    (mac payload key : List Nat) (hmac : mac.length = 6)
    (hp : ∀ x ∈ payload, x < 256) (hkey : ∀ x ∈ key, x < 256) :
    commandUnpackWithPayload
      (commandPackWithPayload (commandWithCount count devType mac id packetType)
        payload key) key = .ok (dropTrailingZeros payload) ∧
    ∃ n, payload = dropTrailingZeros payload ++ List.replicate n 0 := by
  refine ⟨?_, dropTrailingZeros_spec payload⟩
  set m := commandWithCount count devType mac id packetType with hm
  set m1 : CommandMessage := { m with payload_checksum := checksum payload } with hm1
  set E := encrypt_vec key ivBlock payload with hE
  set cs := checksum (commandPackHeader m1 ++ E) with hcs
  set m2 : CommandMessage := { m1 with cchecksum := cs } with hm2
  have hpack : commandPackWithPayload m payload key = commandPackHeader m2 ++ E := rfl
  have hprelen : (cmdHdrPre m1).length = 32 := by
    simp [cmdHdrPre, hm1, hm, commandWithCount]
  have hpostlen : (cmdHdrPost m1).length = 22 := by
    simp [cmdHdrPost, hm1, hm, commandWithCount, u16le, u32le, reverse_mac, hmac]
  have hcslt : cs < 65536 := by
    rw [hcs]
    unfold checksum
    omega
  have hsplit : commandPackHeader m2 ++ E =
      cmdHdrPre m1 ++ (cs % 256 :: cs / 256 % 256 :: (cmdHdrPost m1 ++ E)) := by
    rw [hm2]
    simp [commandPackHeader, cmdHdrPre, cmdHdrPost, u16le, List.append_assoc]
  have hmcs : m.cchecksum = 0 := by
    rw [hm]
    rfl
  have hhdr1 : commandPackHeader m1 ++ E =
      cmdHdrPre m1 ++ (0 :: 0 :: (cmdHdrPost m1 ++ E)) := by
    simp [commandPackHeader, u16le, List.append_assoc, hmcs]
  have hstored :
      readU16LE (cmdHdrPre m1 ++ (cs % 256 :: cs / 256 % 256 :: (cmdHdrPost m1 ++ E))) 32 =
        cs := by
    unfold readU16LE
    rw [(getD_at_32 _ hprelen _ _ _).1, (getD_at_32 _ hprelen _ _ _).2]
    omega
  have hzeroed :
      (((cmdHdrPre m1 ++
          (cs % 256 :: cs / 256 % 256 :: (cmdHdrPost m1 ++ E))).set 32 0).set 33 0) =
        cmdHdrPre m1 ++ (0 :: 0 :: (cmdHdrPost m1 ++ E)) :=
    set2_at_32 _ hprelen _ _ _
  have hchk : checksum (cmdHdrPre m1 ++ (0 :: 0 :: (cmdHdrPost m1 ++ E))) = cs := by
    rw [← hhdr1, hcs]
  have hlen56 : (cmdHdrPre m1 ++ (cs % 256 :: cs / 256 % 256 :: cmdHdrPost m1)).length = 56 := by
    simp [hprelen, hpostlen]
  have hdrop :
      List.drop 56 (cmdHdrPre m1 ++ (cs % 256 :: cs / 256 % 256 :: (cmdHdrPost m1 ++ E))) =
        E := by
    calc List.drop 56 (cmdHdrPre m1 ++ (cs % 256 :: cs / 256 % 256 :: (cmdHdrPost m1 ++ E)))
        = List.drop 56 ((cmdHdrPre m1 ++ (cs % 256 :: cs / 256 % 256 :: cmdHdrPost m1)) ++ E) := by
          simp [List.append_assoc]
      _ = E := by rw [← hlen56, List.drop_left]
  rw [hpack, hsplit]
  unfold commandUnpackWithPayload
  rw [if_neg (by
    simp only [List.length_append, List.length_cons, hprelen]
    omega)]
  simp only [hstored, hzeroed, hchk, ne_eq, not_true_eq_false, if_false]
  rw [hdrop, hE, decrypt_encrypt_vec hkey (by decide) hp]

/-- Witness for C4 at a concrete command, payload `[1, 2, 3]` and the initial
key. -/
theorem c4_command_envelope_roundtrip_witness :
    (([1, 2, 3, 4, 5, 6] : List Nat).length = 6) ∧
    (∀ x ∈ ([1, 2, 3] : List Nat), x < 256) ∧
    (∀ x ∈ INITIAL_KEY, x < 256) ∧
    (commandUnpackWithPayload
      (commandPackWithPayload
        (commandWithCount 0x1234 0x649B [1, 2, 3, 4, 5, 6] 0xABCDEFAB 0x0065)
        [1, 2, 3] INITIAL_KEY) INITIAL_KEY = .ok (dropTrailingZeros [1, 2, 3]) ∧
    ∃ n, ([1, 2, 3] : List Nat) = dropTrailingZeros [1, 2, 3] ++ List.replicate n 0) :=
  ⟨by decide, by decide, by decide,
   c4_command_envelope_roundtrip 0x1234 0x649B 0xABCDEFAB 0x0065 [1, 2, 3, 4, 5, 6]
     [1, 2, 3] INITIAL_KEY (by decide) (by decide) (by decide)⟩

set_option maxHeartbeats 4000000 in
/-- Sanity anchor: the embedding reproduces the repository's own test fixture
`command_packs_correctly` byte for byte (72 bytes: 0x38-byte header plus one
AES-CBC ciphertext block). -/
theorem command_pack_fixture :
    commandPackWithPayload
      (commandWithCount 0x1234 0x649B [0x1, 0x2, 0x3, 0x4, 0x5, 0x6] 0xABCDEFAB 0x0065)
      [0, 1, 2, 3, 4, 5, 6, 7, 8, 9] INITIAL_KEY =
      [90, 165, 170, 85, 90, 165, 170, 85, 0, 0, 0, 0, 0, 0, 0, 0, 0, 0, 0, 0,
       0, 0, 0, 0, 0, 0, 0, 0, 0, 0, 0, 0, 205, 209, 0, 0, 155, 100, 101, 0,
       52, 146, 6, 5, 4, 3, 2, 1, 171, 239, 205, 171, 220, 190, 0, 0, 165, 197,
       88, 183, 43, 70, 174, 88, 109, 241, 187, 8, 228, 74, 30, 218] := by
  decide
